import Mathlib

/-!
Shallow embedding of the data-access core of the Hack-Coms repository
(`src/database_handler/`): entity models with validation, serialization,
equality, repositories over an in-memory database state, configuration
validation and the scoped-transaction control flow.  Python exceptions are
modelled as `Except` results over the `PyErr` error inductive, Python `int`
as `Int`, Python `str` as `String` (`len` counts code points, matching
`String.length`), Python `dict`-shaped rows as typed structures, and Python
`datetime` as the `PyDateTime` record, with `isoformat`/`fromisoformat`
modelled concretely on the shapes `isoformat` emits.
-/

/-- A Python value as it appears in an entity's free-form `metadata` map
(`Dict[str, Any]`); the core never interprets these. -/
inductive PyVal where
  | none
  | int (n : Int)
  | str (s : String)
  | bool (b : Bool)
  deriving Repr, DecidableEq

/-- The open metadata map carried by every entity (`BaseModel.metadata`). -/
abbrev Metadata := List (String × PyVal)

/-- The exception taxonomy of `core/exceptions.py`, together with Python's
built-in `ValueError` (raised by `DatabaseConfig.validate`).  The offending
value carried by `ValidationError` is elided; the message and the named
field are kept. -/
inductive PyErr where
  | validationError (message : String) (field : String)
  | notFoundError (resourceType : String) (identifier : Int)
  | duplicateError (resourceType : String) (field : String)
  | valueError (message : String)
  | connectionError (message : String)
  | databaseError (message : String) (cause : PyErr)
  | transactionError (message : String) (cause : PyErr)
  | configurationError (message : String)
  deriving Repr, DecidableEq

/-- `not s.strip()` in Python: the string consists only of whitespace
(including the empty string). -/
def pyBlank (s : String) : Bool :=
  s.data.all fun c => c.isWhitespace

/-- Python `self.f and len(self.f) > n` for a plain `str` field: the field is
truthy (non-empty) and longer than `n`. -/
def strLenOver (s : String) (n : Nat) : Bool :=
  !(s == "") && decide (s.length > n)

/-- Python `self.f and len(self.f) > n` for an `Optional[str]` field: the
field is not `None`, truthy (non-empty) and longer than `n`. -/
def optLenOver (o : Option String) (n : Nat) : Bool :=
  match o with
  | Option.none => false
  | some s => strLenOver s n

/-- A Python `datetime.datetime`: naive when `tzOffsetMinutes` is `none`,
otherwise aware with a whole-minute UTC offset (the form psycopg2 produces
for `timestamptz` columns). -/
structure PyDateTime where
  year : Nat
  month : Nat
  day : Nat
  hour : Nat
  minute : Nat
  second : Nat
  microsecond : Nat
  tzOffsetMinutes : Option Int
  deriving Repr, DecidableEq

/-- The field ranges Python's `datetime` guarantees (`MINYEAR = 1`,
`MAXYEAR = 9999`, offsets strictly below 24 hours). -/
def PyDateTime.Valid (dt : PyDateTime) : Prop :=
  1 ≤ dt.year ∧ dt.year ≤ 9999 ∧ 1 ≤ dt.month ∧ dt.month ≤ 12 ∧
  1 ≤ dt.day ∧ dt.day ≤ 31 ∧ dt.hour ≤ 23 ∧ dt.minute ≤ 59 ∧
  dt.second ≤ 59 ∧ dt.microsecond ≤ 999999 ∧
  ∀ o ∈ dt.tzOffsetMinutes, o.natAbs < 1440

instance (dt : PyDateTime) : Decidable dt.Valid := by
  unfold PyDateTime.Valid
  infer_instance

/-- Two-digit zero-padded decimal rendering (`%02d`). -/
def two (n : Nat) : List Char :=
  [Nat.digitChar (n / 10), Nat.digitChar (n % 10)]

/-- Four-digit zero-padded decimal rendering (`%04d`). -/
def four (n : Nat) : List Char :=
  [Nat.digitChar (n / 1000), Nat.digitChar (n / 100 % 10),
   Nat.digitChar (n / 10 % 10), Nat.digitChar (n % 10)]

/-- Six-digit zero-padded decimal rendering (`%06d`), used for the
microseconds part. -/
def six (n : Nat) : List Char :=
  [Nat.digitChar (n / 100000), Nat.digitChar (n / 10000 % 10),
   Nat.digitChar (n / 1000 % 10), Nat.digitChar (n / 100 % 10),
   Nat.digitChar (n / 10 % 10), Nat.digitChar (n % 10)]

/-- The fractional-seconds part of `isoformat()`: present exactly when
`microsecond` is nonzero. -/
def fracChars (u : Nat) : List Char :=
  if u = 0 then [] else '.' :: six u

/-- The UTC-offset part of `isoformat()`: `±HH:MM`, present exactly when
the datetime is aware. -/
def tzChars : Option Int → List Char
  | Option.none => []
  | some o =>
    (if o < 0 then '-' else '+') :: two (o.natAbs / 60) ++ ':' :: two (o.natAbs % 60)

/-- Model of Python's `datetime.isoformat()`:
`YYYY-MM-DDTHH:MM:SS[.ffffff][±HH:MM]`. -/
def isoformatChars (dt : PyDateTime) : List Char :=
  four dt.year ++ '-' :: two dt.month ++ '-' :: two dt.day ++
  'T' :: two dt.hour ++ ':' :: two dt.minute ++ ':' :: two dt.second ++
  fracChars dt.microsecond ++ tzChars dt.tzOffsetMinutes

/-- `datetime.isoformat()` as a string. -/
def isoformat (dt : PyDateTime) : String :=
  String.mk (isoformatChars dt)

/-- One decimal digit, or `none` for a non-digit character. -/
def parseDigit (c : Char) : Option Nat :=
  if c.isDigit then some (c.toNat - 48) else Option.none

/-- Consume exactly `n` decimal digits, returning their value and the rest
of the input. -/
def takeDigits : Nat → Nat → List Char → Option (Nat × List Char)
  | 0, acc, l => some (acc, l)
  | _ + 1, _, [] => Option.none
  | n + 1, acc, c :: l => do
    let d ← parseDigit c
    takeDigits n (acc * 10 + d) l

/-- Consume one expected literal character. -/
def expectChar (c : Char) : List Char → Option (List Char)
  | [] => Option.none
  | x :: xs => if x = c then some xs else Option.none

/-- The trailing-offset stage of `fromisoformat`: end of input for a naive
result, or a `±HH:MM` offset. -/
def parseTzPart (y mo d h mi s u : Nat) : List Char → Option PyDateTime
  | [] => some ⟨y, mo, d, h, mi, s, u, Option.none⟩
  | '+' :: rest => do
    let (oh, rest) ← takeDigits 2 0 rest
    let rest ← expectChar ':' rest
    let (om, rest) ← takeDigits 2 0 rest
    match rest with
    | [] => some ⟨y, mo, d, h, mi, s, u, some ((oh : Int) * 60 + om)⟩
    | _ => Option.none
  | '-' :: rest => do
    let (oh, rest) ← takeDigits 2 0 rest
    let rest ← expectChar ':' rest
    let (om, rest) ← takeDigits 2 0 rest
    match rest with
    | [] => some ⟨y, mo, d, h, mi, s, u, some (-((oh : Int) * 60 + om))⟩
    | _ => Option.none
  | _ => Option.none

/-- The fractional-seconds stage of `fromisoformat`: an optional `.ffffff`
before the offset stage. -/
def parseFracPart (y mo d h mi s : Nat) (l : List Char) : Option PyDateTime :=
  match l with
  | '.' :: rest => do
    let (u, l2) ← takeDigits 6 0 rest
    parseTzPart y mo d h mi s u l2
  | _ => parseTzPart y mo d h mi s 0 l

/-- Model of Python's `datetime.fromisoformat` restricted to the shapes
`isoformat` emits: a date, optionally followed by a `T`-separated time, an
optional 6-digit fractional part and an optional `±HH:MM` offset.  Any
other input yields `none` (Python raises `ValueError`). -/
def fromisoChars (l : List Char) : Option PyDateTime := do
  let (y, l) ← takeDigits 4 0 l
  let l ← expectChar '-' l
  let (mo, l) ← takeDigits 2 0 l
  let l ← expectChar '-' l
  let (d, l) ← takeDigits 2 0 l
  match l with
  | [] => some ⟨y, mo, d, 0, 0, 0, 0, Option.none⟩
  | _ => do
    let l ← expectChar 'T' l
    let (h, l) ← takeDigits 2 0 l
    let l ← expectChar ':' l
    let (mi, l) ← takeDigits 2 0 l
    let l ← expectChar ':' l
    let (s, l) ← takeDigits 2 0 l
    parseFracPart y mo d h mi s l

/-- `s.replace('Z', '+00:00')` as performed by `BaseModel.from_dict` before
parsing a timestamp string. -/
def pyReplaceZ : List Char → List Char
  | [] => []
  | c :: rest =>
    if c = 'Z' then '+' :: '0' :: '0' :: ':' :: '0' :: '0' :: pyReplaceZ rest
    else c :: pyReplaceZ rest

/-- The timestamp conversion of `BaseModel.from_dict`: a present string
value is `replace('Z', '+00:00')`-ed and parsed with `fromisoformat`
(parse failure raises, modelled as `none`); an absent value stays absent. -/
def parseTsField : Option String → Option (Option PyDateTime)
  | Option.none => some Option.none
  | some s => (fromisoChars (pyReplaceZ s.data)).map some

/-- `models/project.py`: the `Project` dataclass, base fields flattened in
(Python inherits them from `BaseModel`). -/
structure Project where
  id : Option Int := Option.none
  created_at : Option PyDateTime := Option.none
  updated_at : Option PyDateTime := Option.none
  metadata : Metadata := []
  name : String := ""
  description : String := ""
  deriving Repr, DecidableEq

/-- `Project.validate`. -/
def Project.validate (p : Project) : Except PyErr Unit :=
  if p.name = "" ∨ pyBlank p.name then
    .error (.validationError "Project name is required" "name")
  else if p.name.length > 255 then
    .error (.validationError "Project name must be 255 characters or less" "name")
  else if strLenOver p.description 10000 then
    .error (.validationError "Project description must be 10000 characters or less" "description")
  else .ok ()

/-- `models/text_source.py`: the `TextSource` dataclass. -/
structure TextSource where
  id : Option Int := Option.none
  created_at : Option PyDateTime := Option.none
  updated_at : Option PyDateTime := Option.none
  metadata : Metadata := []
  project_id : Int := 0
  title : String := ""
  content : String := ""
  source_type : String := "text"
  source_url : Option String := Option.none
  deriving Repr, DecidableEq

/-- `TextSource.validate`. -/
def TextSource.validate (t : TextSource) : Except PyErr Unit :=
  if t.project_id = 0 ∨ t.project_id ≤ 0 then
    .error (.validationError "Project ID is required and must be positive" "project_id")
  else if t.title = "" ∨ pyBlank t.title then
    .error (.validationError "Text source title is required" "title")
  else if t.title.length > 255 then
    .error (.validationError "Text source title must be 255 characters or less" "title")
  else if t.content = "" ∨ pyBlank t.content then
    .error (.validationError "Text source content is required" "content")
  else if strLenOver t.source_type 50 then
    .error (.validationError "Source type must be 50 characters or less" "source_type")
  else if optLenOver t.source_url 500 then
    .error (.validationError "Source URL must be 500 characters or less" "source_url")
  else .ok ()

/-- `models/summary.py`: the `Summary` dataclass. -/
structure Summary where
  id : Option Int := Option.none
  created_at : Option PyDateTime := Option.none
  updated_at : Option PyDateTime := Option.none
  metadata : Metadata := []
  text_source_id : Int := 0
  title : Option String := Option.none
  content : String := ""
  summary_type : String := "general"
  deriving Repr, DecidableEq

/-- `Summary.validate`. -/
def Summary.validate (s : Summary) : Except PyErr Unit :=
  if s.text_source_id = 0 ∨ s.text_source_id ≤ 0 then
    .error (.validationError "Text source ID is required and must be positive" "text_source_id")
  else if s.content = "" ∨ pyBlank s.content then
    .error (.validationError "Summary content is required" "content")
  else if optLenOver s.title 255 then
    .error (.validationError "Summary title must be 255 characters or less" "title")
  else if strLenOver s.summary_type 50 then
    .error (.validationError "Summary type must be 50 characters or less" "summary_type")
  else .ok ()

/-- One element of a `Translation`'s token list: a Python dict expected to
carry a `token` string and a `pos` integer.  Key presence is modelled with
`Option`; the `isinstance` checks of `validate` hold by construction here. -/
structure PyToken where
  token : Option String := Option.none
  pos : Option Int := Option.none
  deriving Repr, DecidableEq

/-- The per-token structural validation loop of `Translation.validate`
(the index in the source's messages is elided). -/
def checkTokens : List PyToken → Except PyErr Unit
  | [] => .ok ()
  | t :: ts =>
    match t.token, t.pos with
    | Option.none, _ =>
      .error (.validationError "Token must have token field" "tokens")
    | some _, Option.none =>
      .error (.validationError "Token must have pos field" "tokens")
    | some _, some p =>
      if p < 0 then
        .error (.validationError "Token position must be a non-negative integer" "tokens")
      else checkTokens ts

/-- `models/translation.py`: the `Translation` dataclass (`__post_init__`
normalizes a `None` token list to `[]`, so the field is a plain list). -/
structure Translation where
  id : Option Int := Option.none
  created_at : Option PyDateTime := Option.none
  updated_at : Option PyDateTime := Option.none
  metadata : Metadata := []
  text_source_id : Int := 0
  language_code : String := ""
  title : Option String := Option.none
  tokens : List PyToken := []
  original_text : Option String := Option.none
  deriving Repr, DecidableEq

/-- `Translation.validate`. -/
def Translation.validate (t : Translation) : Except PyErr Unit :=
  if t.text_source_id = 0 ∨ t.text_source_id ≤ 0 then
    .error (.validationError "Text source ID is required and must be positive" "text_source_id")
  else if t.language_code = "" ∨ pyBlank t.language_code then
    .error (.validationError "Language code is required" "language_code")
  else if t.language_code.length > 10 then
    .error (.validationError "Language code must be 10 characters or less" "language_code")
  else if optLenOver t.title 255 then
    .error (.validationError "Translation title must be 255 characters or less" "title")
  else if t.tokens = [] then
    .error (.validationError "Tokens are required for translation" "tokens")
  else checkTokens t.tokens

/-- The sort key `lambda x: x['pos']` used by `get_token_text`; the key is
always present on validated tokens, so the default only totalizes the
lookup. -/
def tokenKey (t : PyToken) : Int :=
  t.pos.getD 0

/-- Comparison by token position. -/
def tokenLe (a b : PyToken) : Prop :=
  tokenKey a ≤ tokenKey b

instance : DecidableRel tokenLe := fun a b =>
  inferInstanceAs (Decidable (tokenKey a ≤ tokenKey b))

instance : IsTotal PyToken tokenLe :=
  ⟨fun a b => Int.le_total (tokenKey a) (tokenKey b)⟩

instance : IsTrans PyToken tokenLe :=
  ⟨fun _ _ _ hab hbc => le_trans hab hbc⟩

/-- `Translation.get_token_text`: empty for no tokens, otherwise the token
strings joined by single spaces after a stable sort by `pos` (Python's
`sorted` is stable, matched here by insertion sort). -/
def Translation.get_token_text (t : Translation) : String :=
  if t.tokens = [] then ""
  else String.intercalate " "
    ((List.insertionSort tokenLe t.tokens).map fun tok => tok.token.getD "")

/-- `models/video.py`: the `Video` dataclass. -/
structure Video where
  id : Option Int := Option.none
  created_at : Option PyDateTime := Option.none
  updated_at : Option PyDateTime := Option.none
  metadata : Metadata := []
  text_source_id : Int := 0
  title : Option String := Option.none
  file_path : String := ""
  file_url : Option String := Option.none
  file_size : Option Int := Option.none
  duration : Option Int := Option.none
  format : Option String := Option.none
  thumbnail_path : Option String := Option.none
  deriving Repr, DecidableEq

/-- Python `self.f is not None and self.f < 0` for an `Optional[int]`
field. -/
def optNeg (o : Option Int) : Bool :=
  match o with
  | some n => decide (n < 0)
  | Option.none => false

/-- `Video.validate`. -/
def Video.validate (v : Video) : Except PyErr Unit :=
  if v.text_source_id = 0 ∨ v.text_source_id ≤ 0 then
    .error (.validationError "Text source ID is required and must be positive" "text_source_id")
  else if v.file_path = "" ∨ pyBlank v.file_path then
    .error (.validationError "Video file path is required" "file_path")
  else if v.file_path.length > 500 then
    .error (.validationError "Video file path must be 500 characters or less" "file_path")
  else if optLenOver v.title 255 then
    .error (.validationError "Video title must be 255 characters or less" "title")
  else if optLenOver v.file_url 500 then
    .error (.validationError "Video file URL must be 500 characters or less" "file_url")
  else if optNeg v.file_size then
    .error (.validationError "Video file size must be non-negative" "file_size")
  else if optNeg v.duration then
    .error (.validationError "Video duration must be non-negative" "duration")
  else if optLenOver v.format 20 then
    .error (.validationError "Video format must be 20 characters or less" "format")
  else if optLenOver v.thumbnail_path 500 then
    .error (.validationError "Thumbnail path must be 500 characters or less" "thumbnail_path")
  else .ok ()

/-- `Video.get_file_size_mb`: `self.file_size / (1024 * 1024) if
self.file_size else None`.  A `file_size` of `0` is falsy in Python, so it
yields `None` exactly like an unset size.  Python's float division is
modelled as exact rational division. -/
def Video.get_file_size_mb (v : Video) : Option ℚ :=
  match v.file_size with
  | some n => if n ≠ 0 then some ((n : ℚ) / ((1024 : ℚ) * 1024)) else Option.none
  | Option.none => Option.none

/-- Split a character list at its first colon, if any. -/
def splitAtColon : List Char → Option (List Char × List Char)
  | [] => Option.none
  | c :: rest =>
    if c = ':' then some ([], rest)
    else (splitAtColon rest).map fun p => (c :: p.1, p.2)

/-- A syntactically valid URL scheme: a letter followed by letters, digits,
`+`, `-` or `.` (as `urllib.parse` requires before it splits a scheme
off). -/
def validSchemeChars : List Char → Bool
  | [] => false
  | c :: cs => c.isAlpha && cs.all fun x => x.isAlphanum || x = '+' || x = '-' || x = '.'

/-- Model of `urllib.parse.urlparse` restricted to the `scheme` and
`netloc` components used by `Link.validate`: the scheme is the lowercased
prefix before the first colon when well-formed, and the netloc is what
follows a leading `//`, up to the next `/`, `?` or `#`. -/
def urlparseSchemeNetloc (l : List Char) : List Char × List Char :=
  let p := match splitAtColon l with
    | some (pre, post) =>
      if validSchemeChars pre then (pre.map Char.toLower, post) else ([], l)
    | Option.none => ([], l)
  let netloc := match p.2 with
    | '/' :: '/' :: r => r.takeWhile fun c => c ≠ '/' ∧ c ≠ '?' ∧ c ≠ '#'
    | _ => []
  (p.1, netloc)

/-- `models/link.py`: the `Link` dataclass. -/
structure Link where
  id : Option Int := Option.none
  created_at : Option PyDateTime := Option.none
  updated_at : Option PyDateTime := Option.none
  metadata : Metadata := []
  text_source_id : Int := 0
  url : String := ""
  title : Option String := Option.none
  description : Option String := Option.none
  link_type : String := "reference"
  is_active : Bool := true
  deriving Repr, DecidableEq

/-- `Link.validate`. -/
def Link.validate (l : Link) : Except PyErr Unit :=
  if l.text_source_id = 0 ∨ l.text_source_id ≤ 0 then
    .error (.validationError "Text source ID is required and must be positive" "text_source_id")
  else if l.url = "" ∨ pyBlank l.url then
    .error (.validationError "Link URL is required" "url")
  else if l.url.length > 500 then
    .error (.validationError "Link URL must be 500 characters or less" "url")
  else if (urlparseSchemeNetloc l.url.data).1 = [] ∨ (urlparseSchemeNetloc l.url.data).2 = [] then
    .error (.validationError "Invalid URL format" "url")
  else if optLenOver l.title 255 then
    .error (.validationError "Link title must be 255 characters or less" "title")
  else if optLenOver l.description 1000 then
    .error (.validationError "Link description must be 1000 characters or less" "description")
  else if strLenOver l.link_type 50 then
    .error (.validationError "Link type must be 50 characters or less" "link_type")
  else .ok ()

/-- The plain key-value representation `Project.to_dict` produces: `asdict`
output with `datetime` values converted to ISO strings. -/
structure ProjectDict where
  id : Option Int
  created_at : Option String
  updated_at : Option String
  metadata : Metadata
  name : String
  description : String
  deriving Repr, DecidableEq

/-- `BaseModel.to_dict` at type `Project`. -/
def Project.to_dict (p : Project) : ProjectDict :=
  { id := p.id
    created_at := p.created_at.map isoformat
    updated_at := p.updated_at.map isoformat
    metadata := p.metadata
    name := p.name
    description := p.description }

/-- `BaseModel.from_dict` at type `Project` (a timestamp that fails to
parse raises, modelled as `none`). -/
def Project.from_dict (d : ProjectDict) : Option Project := do
  let ca ← parseTsField d.created_at
  let ua ← parseTsField d.updated_at
  some { id := d.id, created_at := ca, updated_at := ua,
         metadata := d.metadata, name := d.name, description := d.description }

/-- `TextSource.to_dict` output shape. -/
structure TextSourceDict where
  id : Option Int
  created_at : Option String
  updated_at : Option String
  metadata : Metadata
  project_id : Int
  title : String
  content : String
  source_type : String
  source_url : Option String
  deriving Repr, DecidableEq

/-- `BaseModel.to_dict` at type `TextSource`. -/
def TextSource.to_dict (t : TextSource) : TextSourceDict :=
  { id := t.id
    created_at := t.created_at.map isoformat
    updated_at := t.updated_at.map isoformat
    metadata := t.metadata
    project_id := t.project_id
    title := t.title
    content := t.content
    source_type := t.source_type
    source_url := t.source_url }

/-- `BaseModel.from_dict` at type `TextSource`. -/
def TextSource.from_dict (d : TextSourceDict) : Option TextSource := do
  let ca ← parseTsField d.created_at
  let ua ← parseTsField d.updated_at
  some { id := d.id, created_at := ca, updated_at := ua,
         metadata := d.metadata, project_id := d.project_id, title := d.title,
         content := d.content, source_type := d.source_type,
         source_url := d.source_url }

/-- `Summary.to_dict` output shape. -/
structure SummaryDict where
  id : Option Int
  created_at : Option String
  updated_at : Option String
  metadata : Metadata
  text_source_id : Int
  title : Option String
  content : String
  summary_type : String
  deriving Repr, DecidableEq

/-- `BaseModel.to_dict` at type `Summary`. -/
def Summary.to_dict (s : Summary) : SummaryDict :=
  { id := s.id
    created_at := s.created_at.map isoformat
    updated_at := s.updated_at.map isoformat
    metadata := s.metadata
    text_source_id := s.text_source_id
    title := s.title
    content := s.content
    summary_type := s.summary_type }

/-- `BaseModel.from_dict` at type `Summary`. -/
def Summary.from_dict (d : SummaryDict) : Option Summary := do
  let ca ← parseTsField d.created_at
  let ua ← parseTsField d.updated_at
  some { id := d.id, created_at := ca, updated_at := ua,
         metadata := d.metadata, text_source_id := d.text_source_id,
         title := d.title, content := d.content,
         summary_type := d.summary_type }

/-- `Translation.to_dict` output shape (`asdict` recurses into the token
dicts structurally, leaving them unchanged). -/
structure TranslationDict where
  id : Option Int
  created_at : Option String
  updated_at : Option String
  metadata : Metadata
  text_source_id : Int
  language_code : String
  title : Option String
  tokens : List PyToken
  original_text : Option String
  deriving Repr, DecidableEq

/-- `BaseModel.to_dict` at type `Translation`. -/
def Translation.to_dict (t : Translation) : TranslationDict :=
  { id := t.id
    created_at := t.created_at.map isoformat
    updated_at := t.updated_at.map isoformat
    metadata := t.metadata
    text_source_id := t.text_source_id
    language_code := t.language_code
    title := t.title
    tokens := t.tokens
    original_text := t.original_text }

/-- `BaseModel.from_dict` at type `Translation`. -/
def Translation.from_dict (d : TranslationDict) : Option Translation := do
  let ca ← parseTsField d.created_at
  let ua ← parseTsField d.updated_at
  some { id := d.id, created_at := ca, updated_at := ua,
         metadata := d.metadata, text_source_id := d.text_source_id,
         language_code := d.language_code, title := d.title,
         tokens := d.tokens, original_text := d.original_text }

/-- `Video.to_dict` output shape. -/
structure VideoDict where
  id : Option Int
  created_at : Option String
  updated_at : Option String
  metadata : Metadata
  text_source_id : Int
  title : Option String
  file_path : String
  file_url : Option String
  file_size : Option Int
  duration : Option Int
  format : Option String
  thumbnail_path : Option String
  deriving Repr, DecidableEq

/-- `BaseModel.to_dict` at type `Video`. -/
def Video.to_dict (v : Video) : VideoDict :=
  { id := v.id
    created_at := v.created_at.map isoformat
    updated_at := v.updated_at.map isoformat
    metadata := v.metadata
    text_source_id := v.text_source_id
    title := v.title
    file_path := v.file_path
    file_url := v.file_url
    file_size := v.file_size
    duration := v.duration
    format := v.format
    thumbnail_path := v.thumbnail_path }

/-- `BaseModel.from_dict` at type `Video`. -/
def Video.from_dict (d : VideoDict) : Option Video := do
  let ca ← parseTsField d.created_at
  let ua ← parseTsField d.updated_at
  some { id := d.id, created_at := ca, updated_at := ua,
         metadata := d.metadata, text_source_id := d.text_source_id,
         title := d.title, file_path := d.file_path, file_url := d.file_url,
         file_size := d.file_size, duration := d.duration, format := d.format,
         thumbnail_path := d.thumbnail_path }

/-- `Link.to_dict` output shape. -/
structure LinkDict where
  id : Option Int
  created_at : Option String
  updated_at : Option String
  metadata : Metadata
  text_source_id : Int
  url : String
  title : Option String
  description : Option String
  link_type : String
  is_active : Bool
  deriving Repr, DecidableEq

/-- `BaseModel.to_dict` at type `Link`. -/
def Link.to_dict (l : Link) : LinkDict :=
  { id := l.id
    created_at := l.created_at.map isoformat
    updated_at := l.updated_at.map isoformat
    metadata := l.metadata
    text_source_id := l.text_source_id
    url := l.url
    title := l.title
    description := l.description
    link_type := l.link_type
    is_active := l.is_active }

/-- `BaseModel.from_dict` at type `Link`. -/
def Link.from_dict (d : LinkDict) : Option Link := do
  let ca ← parseTsField d.created_at
  let ua ← parseTsField d.updated_at
  some { id := d.id, created_at := ca, updated_at := ua,
         metadata := d.metadata, text_source_id := d.text_source_id,
         url := d.url, title := d.title, description := d.description,
         link_type := d.link_type, is_active := d.is_active }

/-- The equality `BaseModel.__eq__` implements as written: same concrete
class, then identity comparison when both ids are assigned, otherwise
Python object identity (`super().__eq__`), passed in explicitly as
`sameObject`. -/
def baseModelEqAsWritten (sameClass : Bool) (selfId otherId : Option Int)
    (sameObject : Bool) : Bool :=
  if !sameClass then false
  else match selfId, otherId with
    | some a, some b => decide (a = b)
    | _, _ => sameObject

/-- The equality two `Project` instances actually have in the program: the
`@dataclass` decorator regenerates `__eq__` on every concrete subclass
whose own class body does not define it, so `BaseModel.__eq__` is shadowed
and `p == q` compares the full field tuples of same-class operands. -/
def Project.pyEq (p q : Project) : Bool :=
  decide (p.id = q.id) && decide (p.created_at = q.created_at) &&
  decide (p.updated_at = q.updated_at) && decide (p.metadata = q.metadata) &&
  (p.name == q.name) && (p.description == q.description)

/-- The in-memory database: one table per entity kind, a fresh-id sequence
per table and the current timestamp (`CURRENT_TIMESTAMP`). -/
structure DBState where
  projects : List Project
  textSources : List TextSource
  summaries : List Summary
  translations : List Translation
  videos : List Video
  links : List Link
  nextProjectId : Int
  nextTextSourceId : Int
  nextSummaryId : Int
  nextTranslationId : Int
  nextVideoId : Int
  nextLinkId : Int
  now : PyDateTime

/-- `SELECT id FROM projects WHERE id = %s` is non-empty. -/
def projectExists (st : DBState) (pid : Int) : Bool :=
  st.projects.any fun p => p.id == some pid

/-- `SELECT id FROM text_sources WHERE id = %s` is non-empty. -/
def textSourceExists (st : DBState) (tsid : Int) : Bool :=
  st.textSources.any fun t => t.id == some tsid

/-- `TextSourceRepository.create`: validate, verify the parent `Project`
exists, then insert and return the entity populated with its identity and
timestamps. -/
def TextSourceRepository.create (st : DBState) (data : TextSource) :
    Except PyErr (DBState × TextSource) := do
  data.validate
  if !projectExists st data.project_id then
    .error (.notFoundError "Project" data.project_id)
  else
    let row := { data with id := some st.nextTextSourceId,
                           created_at := some st.now, updated_at := some st.now }
    .ok ({ st with textSources := st.textSources ++ [row],
                   nextTextSourceId := st.nextTextSourceId + 1 }, row)

/-- `SummaryRepository.create`. -/
def SummaryRepository.create (st : DBState) (data : Summary) :
    Except PyErr (DBState × Summary) := do
  data.validate
  if !textSourceExists st data.text_source_id then
    .error (.notFoundError "TextSource" data.text_source_id)
  else
    let row := { data with id := some st.nextSummaryId,
                           created_at := some st.now, updated_at := some st.now }
    .ok ({ st with summaries := st.summaries ++ [row],
                   nextSummaryId := st.nextSummaryId + 1 }, row)

/-- `TranslationRepository.create`. -/
def TranslationRepository.create (st : DBState) (data : Translation) :
    Except PyErr (DBState × Translation) := do
  data.validate
  if !textSourceExists st data.text_source_id then
    .error (.notFoundError "TextSource" data.text_source_id)
  else
    let row := { data with id := some st.nextTranslationId,
                           created_at := some st.now, updated_at := some st.now }
    .ok ({ st with translations := st.translations ++ [row],
                   nextTranslationId := st.nextTranslationId + 1 }, row)

/-- `VideoRepository.create`. -/
def VideoRepository.create (st : DBState) (data : Video) :
    Except PyErr (DBState × Video) := do
  data.validate
  if !textSourceExists st data.text_source_id then
    .error (.notFoundError "TextSource" data.text_source_id)
  else
    let row := { data with id := some st.nextVideoId,
                           created_at := some st.now, updated_at := some st.now }
    .ok ({ st with videos := st.videos ++ [row],
                   nextVideoId := st.nextVideoId + 1 }, row)

/-- `LinkRepository.create`. -/
def LinkRepository.create (st : DBState) (data : Link) :
    Except PyErr (DBState × Link) := do
  data.validate
  if !textSourceExists st data.text_source_id then
    .error (.notFoundError "TextSource" data.text_source_id)
  else
    let row := { data with id := some st.nextLinkId,
                           created_at := some st.now, updated_at := some st.now }
    .ok ({ st with links := st.links ++ [row],
                   nextLinkId := st.nextLinkId + 1 }, row)

/-- The state produced by a repository call, the unchanged input state when
the call raised. -/
def resultState {α : Type} (r : Except PyErr (DBState × α)) (st : DBState) : DBState :=
  match r with
  | .ok (st2, _) => st2
  | .error _ => st

/-- The validate-every-candidate-first loop of every `bulk_create`: the
first validation failure raises. -/
def firstError {α : Type} (f : α → Except PyErr Unit) : List α → Except PyErr Unit
  | [] => .ok ()
  | x :: xs => do
    f x
    firstError f xs

/-- `TextSourceRepository.bulk_create`: empty input returns immediately;
otherwise every candidate is validated first, then all referenced parents
are checked in one batched existence query, and only then is the multi-row
insert issued, with identities and timestamps redistributed in order. -/
def TextSourceRepository.bulk_create (st : DBState) (datas : List TextSource) :
    Except PyErr (DBState × List TextSource) :=
  if datas = [] then .ok (st, [])
  else do
    firstError TextSource.validate datas
    match datas.find? (fun d => !projectExists st d.project_id) with
    | some d => .error (.notFoundError "Project" d.project_id)
    | Option.none =>
      let rows := datas.mapIdx fun i d =>
        { d with id := some (st.nextTextSourceId + i),
                 created_at := some st.now, updated_at := some st.now }
      .ok ({ st with textSources := st.textSources ++ rows,
                     nextTextSourceId := st.nextTextSourceId + datas.length }, rows)

/-- `SummaryRepository.bulk_create`. -/
def SummaryRepository.bulk_create (st : DBState) (datas : List Summary) :
    Except PyErr (DBState × List Summary) :=
  if datas = [] then .ok (st, [])
  else do
    firstError Summary.validate datas
    match datas.find? (fun d => !textSourceExists st d.text_source_id) with
    | some d => .error (.notFoundError "TextSource" d.text_source_id)
    | Option.none =>
      let rows := datas.mapIdx fun i d =>
        { d with id := some (st.nextSummaryId + i),
                 created_at := some st.now, updated_at := some st.now }
      .ok ({ st with summaries := st.summaries ++ rows,
                     nextSummaryId := st.nextSummaryId + datas.length }, rows)

/-- `TranslationRepository.bulk_create`. -/
def TranslationRepository.bulk_create (st : DBState) (datas : List Translation) :
    Except PyErr (DBState × List Translation) :=
  if datas = [] then .ok (st, [])
  else do
    firstError Translation.validate datas
    match datas.find? (fun d => !textSourceExists st d.text_source_id) with
    | some d => .error (.notFoundError "TextSource" d.text_source_id)
    | Option.none =>
      let rows := datas.mapIdx fun i d =>
        { d with id := some (st.nextTranslationId + i),
                 created_at := some st.now, updated_at := some st.now }
      .ok ({ st with translations := st.translations ++ rows,
                     nextTranslationId := st.nextTranslationId + datas.length }, rows)

/-- `VideoRepository.bulk_create`. -/
def VideoRepository.bulk_create (st : DBState) (datas : List Video) :
    Except PyErr (DBState × List Video) :=
  if datas = [] then .ok (st, [])
  else do
    firstError Video.validate datas
    match datas.find? (fun d => !textSourceExists st d.text_source_id) with
    | some d => .error (.notFoundError "TextSource" d.text_source_id)
    | Option.none =>
      let rows := datas.mapIdx fun i d =>
        { d with id := some (st.nextVideoId + i),
                 created_at := some st.now, updated_at := some st.now }
      .ok ({ st with videos := st.videos ++ rows,
                     nextVideoId := st.nextVideoId + datas.length }, rows)

/-- `LinkRepository.bulk_create`. -/
def LinkRepository.bulk_create (st : DBState) (datas : List Link) :
    Except PyErr (DBState × List Link) :=
  if datas = [] then .ok (st, [])
  else do
    firstError Link.validate datas
    match datas.find? (fun d => !textSourceExists st d.text_source_id) with
    | some d => .error (.notFoundError "TextSource" d.text_source_id)
    | Option.none =>
      let rows := datas.mapIdx fun i d =>
        { d with id := some (st.nextLinkId + i),
                 created_at := some st.now, updated_at := some st.now }
      .ok ({ st with links := st.links ++ rows,
                     nextLinkId := st.nextLinkId + datas.length }, rows)

/-- `LinkRepository.get_by_id`. -/
def LinkRepository.get_by_id (st : DBState) (link_id : Int) : Except PyErr Link :=
  match st.links.find? (fun r => r.id == some link_id) with
  | some r => .ok r
  | Option.none => .error (.notFoundError "Link" link_id)

/-- `TranslationRepository.get_by_id`. -/
def TranslationRepository.get_by_id (st : DBState) (translation_id : Int) :
    Except PyErr Translation :=
  match st.translations.find? (fun r => r.id == some translation_id) with
  | some r => .ok r
  | Option.none => .error (.notFoundError "Translation" translation_id)

/-- The `update_data` dict of `LinkRepository.update`: one optional entry
per settable attribute (`hasattr` admits every dataclass field; unknown
keys are dropped by the loop and are not modelled). -/
structure LinkPatch where
  id : Option (Option Int) := Option.none
  created_at : Option (Option PyDateTime) := Option.none
  updated_at : Option (Option PyDateTime) := Option.none
  metadata : Option Metadata := Option.none
  text_source_id : Option Int := Option.none
  url : Option String := Option.none
  title : Option (Option String) := Option.none
  description : Option (Option String) := Option.none
  link_type : Option String := Option.none
  is_active : Option Bool := Option.none

/-- The patch loop of `LinkRepository.update`: every supplied attribute is
set on the fetched entity except `text_source_id`, which the
`key != 'text_source_id'` guard skips. -/
def applyLinkPatch (l : Link) (p : LinkPatch) : Link :=
  { id := p.id.getD l.id
    created_at := p.created_at.getD l.created_at
    updated_at := p.updated_at.getD l.updated_at
    metadata := p.metadata.getD l.metadata
    text_source_id := l.text_source_id
    url := p.url.getD l.url
    title := p.title.getD l.title
    description := p.description.getD l.description
    link_type := p.link_type.getD l.link_type
    is_active := p.is_active.getD l.is_active }

/-- `LinkRepository.update`: fetch (raising `NotFoundError` when absent),
patch, re-validate the merged entity, then write back only the update
columns (`url, title, description, link_type, is_active, metadata`) of the
row with that id, refreshing `updated_at`. -/
def LinkRepository.update (st : DBState) (link_id : Int) (p : LinkPatch) :
    Except PyErr (DBState × Link) := do
  let existing ← LinkRepository.get_by_id st link_id
  let merged := applyLinkPatch existing p
  merged.validate
  let newRow := { existing with
    url := merged.url, title := merged.title, description := merged.description,
    link_type := merged.link_type, is_active := merged.is_active,
    metadata := merged.metadata, updated_at := some st.now }
  .ok ({ st with links := st.links.map fun r => if r.id == some link_id then newRow else r },
       { merged with updated_at := some st.now })

/-- The `update_data` dict of `TranslationRepository.update`. -/
structure TranslationPatch where
  id : Option (Option Int) := Option.none
  created_at : Option (Option PyDateTime) := Option.none
  updated_at : Option (Option PyDateTime) := Option.none
  metadata : Option Metadata := Option.none
  text_source_id : Option Int := Option.none
  language_code : Option String := Option.none
  title : Option (Option String) := Option.none
  tokens : Option (List PyToken) := Option.none
  original_text : Option (Option String) := Option.none

/-- The patch loop of `TranslationRepository.update` (the
`key != 'text_source_id'` guard skips the parent reference). -/
def applyTranslationPatch (t : Translation) (p : TranslationPatch) : Translation :=
  { id := p.id.getD t.id
    created_at := p.created_at.getD t.created_at
    updated_at := p.updated_at.getD t.updated_at
    metadata := p.metadata.getD t.metadata
    text_source_id := t.text_source_id
    language_code := p.language_code.getD t.language_code
    title := p.title.getD t.title
    tokens := p.tokens.getD t.tokens
    original_text := p.original_text.getD t.original_text }

/-- `TranslationRepository.update`: like `LinkRepository.update`; the SQL
`SET` clause covers only the update columns
(`title, tokens, original_text, metadata`), so a patched `language_code`
changes the returned object but not the stored row. -/
def TranslationRepository.update (st : DBState) (translation_id : Int)
    (p : TranslationPatch) : Except PyErr (DBState × Translation) := do
  let existing ← TranslationRepository.get_by_id st translation_id
  let merged := applyTranslationPatch existing p
  merged.validate
  let newRow := { existing with
    title := merged.title, tokens := merged.tokens,
    original_text := merged.original_text, metadata := merged.metadata,
    updated_at := some st.now }
  .ok ({ st with translations :=
           st.translations.map fun r => if r.id == some translation_id then newRow else r },
       { merged with updated_at := some st.now })

/-- `config/database.py`: the `DatabaseConfig` dataclass. -/
structure DatabaseConfig where
  host : String
  port : Int
  database : String
  username : String
  password : String
  pool_size : Int := 10
  max_overflow : Int := 20
  pool_timeout : Int := 30
  pool_recycle : Int := 3600
  ssl_mode : String := "prefer"
  connect_timeout : Int := 10
  deriving Repr, DecidableEq

/-- `DatabaseConfig.validate`: note that every failure raises Python's
built-in `ValueError`. -/
def DatabaseConfig.validate (c : DatabaseConfig) : Except PyErr Unit :=
  if c.host = "" then .error (.valueError "Database host is required")
  else if c.database = "" then .error (.valueError "Database name is required")
  else if c.username = "" then .error (.valueError "Database username is required")
  else if c.password = "" then .error (.valueError "Database password is required")
  else if c.port ≤ 0 ∨ c.port > 65535 then
    .error (.valueError "Database port must be between 1 and 65535")
  else if c.pool_size ≤ 0 then
    .error (.valueError "Pool size must be greater than 0")
  else if c.max_overflow < 0 then
    .error (.valueError "Max overflow must be non-negative")
  else .ok ()

/-- The observable construction state of `core/connection.py`'s
`DatabaseHandler` right after `__init__`. -/
structure DatabaseHandler where
  config : DatabaseConfig
  poolCreated : Bool
  ready : Bool
  deriving Repr, DecidableEq

/-- Models `DatabaseHandler.__init__`: the configuration is validated
immediately, before any pool is built or any connection attempted
(`_pool` stays `None` until the separate initialization call). -/
def DatabaseHandler.construct (cfg : DatabaseConfig) : Except PyErr DatabaseHandler := do
  cfg.validate
  .ok { config := cfg, poolCreated := false, ready := false }

/-- `str(e)` for the error wrap in `transaction()`. -/
def errMessage : PyErr → String
  | .validationError m _ => m
  | .notFoundError rt i => rt ++ " with identifier " ++ toString i ++ " not found"
  | .duplicateError rt f => rt ++ " duplicate on " ++ f
  | .valueError m => m
  | .connectionError m => m
  | .databaseError m _ => m
  | .transactionError m _ => m
  | .configurationError m => m

/-- Connection-level actions observable at the end of a transaction
scope. -/
inductive TxAction where
  | commit
  | rollback
  deriving Repr, DecidableEq

/-- `DatabaseHandler.transaction`: the block runs against one shared
connection whose pending writes (`pending = block committed`) become the
committed state only on normal exit; on any raised error the connection is
rolled back, the committed state is untouched, and the error is re-raised
as `TransactionError` wrapping the original.  Returns the caller-visible
result, the committed database state after the scope, and the
connection-level actions taken. -/
def transactionScope {σ α : Type} (committed : σ)
    (block : σ → Except PyErr (σ × α)) :
    Except PyErr α × σ × List TxAction :=
  match block committed with
  | .ok (pending, a) => (.ok a, pending, [TxAction.commit])
  | .error e =>
    (.error (.transactionError ("Transaction failed: " ++ errMessage e) e),
     committed, [TxAction.rollback])

/-- The call raised `ValidationError` naming field `f`. -/
def namesField (f : String) (r : Except PyErr Unit) : Prop :=
  ∃ m, r = .error (.validationError m f)

/-- An optional timestamp that, when present, is a datetime Python could
actually hold. -/
def OptValidDT (o : Option PyDateTime) : Prop :=
  ∀ dt ∈ o, dt.Valid

/-- `ProjectRepository.get_by_id`. -/
def ProjectRepository.get_by_id (st : DBState) (project_id : Int) : Except PyErr Project :=
  match st.projects.find? (fun r => r.id == some project_id) with
  | some r => .ok r
  | Option.none => .error (.notFoundError "Project" project_id)

/-- `TextSourceRepository.get_by_id`. -/
def TextSourceRepository.get_by_id (st : DBState) (text_source_id : Int) :
    Except PyErr TextSource :=
  match st.textSources.find? (fun r => r.id == some text_source_id) with
  | some r => .ok r
  | Option.none => .error (.notFoundError "TextSource" text_source_id)

/-- `SummaryRepository.get_by_id`. -/
def SummaryRepository.get_by_id (st : DBState) (summary_id : Int) : Except PyErr Summary :=
  match st.summaries.find? (fun r => r.id == some summary_id) with
  | some r => .ok r
  | Option.none => .error (.notFoundError "Summary" summary_id)

/-- `VideoRepository.get_by_id`. -/
def VideoRepository.get_by_id (st : DBState) (video_id : Int) : Except PyErr Video :=
  match st.videos.find? (fun r => r.id == some video_id) with
  | some r => .ok r
  | Option.none => .error (.notFoundError "Video" video_id)

/-- The `update_data` dict of `ProjectRepository.update`: `Project` is the
root, so its patch loop has no parent-reference guard and every dataclass
attribute is settable. -/
structure ProjectPatch where
  id : Option (Option Int) := Option.none
  created_at : Option (Option PyDateTime) := Option.none
  updated_at : Option (Option PyDateTime) := Option.none
  metadata : Option Metadata := Option.none
  name : Option String := Option.none
  description : Option String := Option.none

/-- The patch loop of `ProjectRepository.update` (no excluded key). -/
def applyProjectPatch (pr : Project) (p : ProjectPatch) : Project :=
  { id := p.id.getD pr.id
    created_at := p.created_at.getD pr.created_at
    updated_at := p.updated_at.getD pr.updated_at
    metadata := p.metadata.getD pr.metadata
    name := p.name.getD pr.name
    description := p.description.getD pr.description }

/-- `ProjectRepository.update`: fetch, patch, re-validate, then write back
only the update columns (`name, description, metadata`) of the row with
that id, refreshing `updated_at`. -/
def ProjectRepository.update (st : DBState) (project_id : Int) (p : ProjectPatch) :
    Except PyErr (DBState × Project) := do
  let existing ← ProjectRepository.get_by_id st project_id
  let merged := applyProjectPatch existing p
  merged.validate
  let newRow := { existing with
    name := merged.name, description := merged.description,
    metadata := merged.metadata, updated_at := some st.now }
  .ok ({ st with projects :=
           st.projects.map fun r => if r.id == some project_id then newRow else r },
       { merged with updated_at := some st.now })

/-- The `update_data` dict of `TextSourceRepository.update`. -/
structure TextSourcePatch where
  id : Option (Option Int) := Option.none
  created_at : Option (Option PyDateTime) := Option.none
  updated_at : Option (Option PyDateTime) := Option.none
  metadata : Option Metadata := Option.none
  project_id : Option Int := Option.none
  title : Option String := Option.none
  content : Option String := Option.none
  source_type : Option String := Option.none
  source_url : Option (Option String) := Option.none

/-- The patch loop of `TextSourceRepository.update` (the
`key != 'project_id'` guard skips the parent reference). -/
def applyTextSourcePatch (t : TextSource) (p : TextSourcePatch) : TextSource :=
  { id := p.id.getD t.id
    created_at := p.created_at.getD t.created_at
    updated_at := p.updated_at.getD t.updated_at
    metadata := p.metadata.getD t.metadata
    project_id := t.project_id
    title := p.title.getD t.title
    content := p.content.getD t.content
    source_type := p.source_type.getD t.source_type
    source_url := p.source_url.getD t.source_url }

/-- `TextSourceRepository.update`: fetch, patch (never `project_id`),
re-validate, then write back only the update columns
(`title, content, source_type, source_url, metadata`). -/
def TextSourceRepository.update (st : DBState) (text_source_id : Int)
    (p : TextSourcePatch) : Except PyErr (DBState × TextSource) := do
  let existing ← TextSourceRepository.get_by_id st text_source_id
  let merged := applyTextSourcePatch existing p
  merged.validate
  let newRow := { existing with
    title := merged.title, content := merged.content,
    source_type := merged.source_type, source_url := merged.source_url,
    metadata := merged.metadata, updated_at := some st.now }
  .ok ({ st with textSources :=
           st.textSources.map fun r => if r.id == some text_source_id then newRow else r },
       { merged with updated_at := some st.now })

/-- The `update_data` dict of `SummaryRepository.update`. -/
structure SummaryPatch where
  id : Option (Option Int) := Option.none
  created_at : Option (Option PyDateTime) := Option.none
  updated_at : Option (Option PyDateTime) := Option.none
  metadata : Option Metadata := Option.none
  text_source_id : Option Int := Option.none
  title : Option (Option String) := Option.none
  content : Option String := Option.none
  summary_type : Option String := Option.none

/-- The patch loop of `SummaryRepository.update` (the
`key != 'text_source_id'` guard skips the parent reference). -/
def applySummaryPatch (sm : Summary) (p : SummaryPatch) : Summary :=
  { id := p.id.getD sm.id
    created_at := p.created_at.getD sm.created_at
    updated_at := p.updated_at.getD sm.updated_at
    metadata := p.metadata.getD sm.metadata
    text_source_id := sm.text_source_id
    title := p.title.getD sm.title
    content := p.content.getD sm.content
    summary_type := p.summary_type.getD sm.summary_type }

/-- `SummaryRepository.update`: fetch, patch (never `text_source_id`),
re-validate, then write back only the update columns
(`title, content, summary_type, metadata`). -/
def SummaryRepository.update (st : DBState) (summary_id : Int) (p : SummaryPatch) :
    Except PyErr (DBState × Summary) := do
  let existing ← SummaryRepository.get_by_id st summary_id
  let merged := applySummaryPatch existing p
  merged.validate
  let newRow := { existing with
    title := merged.title, content := merged.content,
    summary_type := merged.summary_type, metadata := merged.metadata,
    updated_at := some st.now }
  .ok ({ st with summaries :=
           st.summaries.map fun r => if r.id == some summary_id then newRow else r },
       { merged with updated_at := some st.now })

/-- The `update_data` dict of `VideoRepository.update`. -/
structure VideoPatch where
  id : Option (Option Int) := Option.none
  created_at : Option (Option PyDateTime) := Option.none
  updated_at : Option (Option PyDateTime) := Option.none
  metadata : Option Metadata := Option.none
  text_source_id : Option Int := Option.none
  title : Option (Option String) := Option.none
  file_path : Option String := Option.none
  file_url : Option (Option String) := Option.none
  file_size : Option (Option Int) := Option.none
  duration : Option (Option Int) := Option.none
  format : Option (Option String) := Option.none
  thumbnail_path : Option (Option String) := Option.none

/-- The patch loop of `VideoRepository.update` (the
`key != 'text_source_id'` guard skips the parent reference). -/
def applyVideoPatch (v : Video) (p : VideoPatch) : Video :=
  { id := p.id.getD v.id
    created_at := p.created_at.getD v.created_at
    updated_at := p.updated_at.getD v.updated_at
    metadata := p.metadata.getD v.metadata
    text_source_id := v.text_source_id
    title := p.title.getD v.title
    file_path := p.file_path.getD v.file_path
    file_url := p.file_url.getD v.file_url
    file_size := p.file_size.getD v.file_size
    duration := p.duration.getD v.duration
    format := p.format.getD v.format
    thumbnail_path := p.thumbnail_path.getD v.thumbnail_path }

/-- `VideoRepository.update`: fetch, patch (never `text_source_id`),
re-validate, then write back only the update columns (`title, file_path,
file_url, file_size, duration, format, thumbnail_path, metadata`). -/
def VideoRepository.update (st : DBState) (video_id : Int) (p : VideoPatch) :
    Except PyErr (DBState × Video) := do
  let existing ← VideoRepository.get_by_id st video_id
  let merged := applyVideoPatch existing p
  merged.validate
  let newRow := { existing with
    title := merged.title, file_path := merged.file_path,
    file_url := merged.file_url, file_size := merged.file_size,
    duration := merged.duration, format := merged.format,
    thumbnail_path := merged.thumbnail_path, metadata := merged.metadata,
    updated_at := some st.now }
  .ok ({ st with videos :=
           st.videos.map fun r => if r.id == some video_id then newRow else r },
       { merged with updated_at := some st.now })

/-! ## Lemmas: digits, the ISO-8601 printer/parser pair -/

theorem parseDigit_digitChar (d : Nat) (h : d < 10) :
    parseDigit (Nat.digitChar d) = some d := by
  interval_cases d <;> rfl

theorem expectChar_cons (c : Char) (rest : List Char) :
    expectChar c (c :: rest) = some rest := by
  simp [expectChar]

theorem takeDigits_two (acc a : Nat) (h : a < 100) (rest : List Char) :
    takeDigits 2 acc (two a ++ rest) = some (acc * 100 + a, rest) := by
  have h1 : a / 10 < 10 := by omega
  have h2 : a % 10 < 10 := by omega
  simp [two, takeDigits, parseDigit_digitChar _ h1, parseDigit_digitChar _ h2]
  omega

theorem takeDigits_four (acc a : Nat) (h : a < 10000) (rest : List Char) :
    takeDigits 4 acc (four a ++ rest) = some (acc * 10000 + a, rest) := by
  have h1 : a / 1000 < 10 := by omega
  have h2 : a / 100 % 10 < 10 := by omega
  have h3 : a / 10 % 10 < 10 := by omega
  have h4 : a % 10 < 10 := by omega
  simp [four, takeDigits, parseDigit_digitChar _ h1, parseDigit_digitChar _ h2,
        parseDigit_digitChar _ h3, parseDigit_digitChar _ h4]
  omega

theorem takeDigits_six (acc a : Nat) (h : a < 1000000) (rest : List Char) :
    takeDigits 6 acc (six a ++ rest) = some (acc * 1000000 + a, rest) := by
  have h1 : a / 100000 < 10 := by omega
  have h2 : a / 10000 % 10 < 10 := by omega
  have h3 : a / 1000 % 10 < 10 := by omega
  have h4 : a / 100 % 10 < 10 := by omega
  have h5 : a / 10 % 10 < 10 := by omega
  have h6 : a % 10 < 10 := by omega
  simp [six, takeDigits, parseDigit_digitChar _ h1, parseDigit_digitChar _ h2,
        parseDigit_digitChar _ h3, parseDigit_digitChar _ h4,
        parseDigit_digitChar _ h5, parseDigit_digitChar _ h6]
  omega


theorem takeDigits_two_nil (acc a : Nat) (h : a < 100) :
    takeDigits 2 acc (two a) = some (acc * 100 + a, []) := by
  have := takeDigits_two acc a h []
  simpa using this

theorem parseTzPart_tzChars (y mo d h mi s u : Nat) (tz : Option Int)
    (htz : ∀ o ∈ tz, o.natAbs < 1440) :
    parseTzPart y mo d h mi s u (tzChars tz) = some ⟨y, mo, d, h, mi, s, u, tz⟩ := by
  rcases tz with _ | o
  · rfl
  · have hoabs : o.natAbs < 1440 := htz o rfl
    have toh := takeDigits_two 0 (o.natAbs / 60) (by omega)
    have tom := takeDigits_two_nil 0 (o.natAbs % 60) (by omega)
    by_cases hneg : o < 0
    · simp only [tzChars, if_pos hneg, List.cons_append, parseTzPart, toh, tom,
        expectChar_cons, Option.bind_eq_bind, Option.some_bind,
        Nat.zero_mul, Nat.zero_add, Option.some.injEq, PyDateTime.mk.injEq,
        true_and]
      omega
    · simp only [tzChars, if_neg hneg, List.cons_append, parseTzPart, toh, tom,
        expectChar_cons, Option.bind_eq_bind, Option.some_bind,
        Nat.zero_mul, Nat.zero_add, Option.some.injEq, PyDateTime.mk.injEq,
        true_and]
      omega

theorem parseFracPart_fracChars (y mo d h mi s u : Nat) (hu : u < 1000000)
    (tz : Option Int) (htz : ∀ o ∈ tz, o.natAbs < 1440) :
    parseFracPart y mo d h mi s (fracChars u ++ tzChars tz) =
      some ⟨y, mo, d, h, mi, s, u, tz⟩ := by
  by_cases hu0 : u = 0
  · subst hu0
    rcases tz with _ | o
    · simp only [fracChars, if_pos rfl, List.nil_append, tzChars, parseFracPart]
      rfl
    · simp only [fracChars, if_pos rfl, List.nil_append, tzChars]
      by_cases hneg : o < 0
      · simp only [if_pos hneg, parseFracPart]
        have := parseTzPart_tzChars y mo d h mi s 0 (some o) htz
        simpa only [tzChars, if_pos hneg] using this
      · simp only [if_neg hneg, parseFracPart]
        have := parseTzPart_tzChars y mo d h mi s 0 (some o) htz
        simpa only [tzChars, if_neg hneg] using this
  · have tu := takeDigits_six 0 u (by omega)
    simp only [fracChars, if_neg hu0, List.cons_append, parseFracPart, tu,
      Option.bind_eq_bind, Option.some_bind, Nat.zero_mul, Nat.zero_add]
    exact parseTzPart_tzChars y mo d h mi s u tz htz

theorem fromiso_isoformat (dt : PyDateTime) (hv : dt.Valid) :
    fromisoChars (isoformatChars dt) = some dt := by
  obtain ⟨y, mo, d, h, mi, s, u, tz⟩ := dt
  obtain ⟨h1, h2, h3, h4, h5, h6, h7, h8, h9, h10, h11⟩ := hv
  simp only at h1 h2 h3 h4 h5 h6 h7 h8 h9 h10 h11
  have ty := takeDigits_four 0 y (by omega)
  have tmo := takeDigits_two 0 mo (by omega)
  have td := takeDigits_two 0 d (by omega)
  have th := takeDigits_two 0 h (by omega)
  have tmi := takeDigits_two 0 mi (by omega)
  have ts := takeDigits_two 0 s (by omega)
  have hfrac := parseFracPart_fracChars y mo d h mi s u (by omega) tz h11
  simp only [isoformatChars, List.append_assoc, List.cons_append, fromisoChars,
    ty, tmo, td, th, tmi, ts, expectChar_cons, Option.bind_eq_bind,
    Option.some_bind, Nat.zero_mul, Nat.zero_add]
  exact hfrac

theorem digitChar_ne_Z (d : Nat) : Nat.digitChar d ≠ 'Z' := by
  rcases d with _|_|_|_|_|_|_|_|_|_|_|_|_|_|_|_|n
  case succ => show '*' ≠ 'Z'; decide
  all_goals decide

theorem noZ_append {l1 l2 : List Char} (h1 : ∀ c ∈ l1, c ≠ 'Z')
    (h2 : ∀ c ∈ l2, c ≠ 'Z') : ∀ c ∈ l1 ++ l2, c ≠ 'Z' := by
  intro c hc
  rcases List.mem_append.1 hc with h | h
  · exact h1 c h
  · exact h2 c h

theorem noZ_cons {x : Char} {l : List Char} (hx : x ≠ 'Z')
    (h : ∀ c ∈ l, c ≠ 'Z') : ∀ c ∈ x :: l, c ≠ 'Z' := by
  intro c hc
  rcases List.mem_cons.1 hc with rfl | h2
  · exact hx
  · exact h c h2

theorem noZ_nil : ∀ c ∈ ([] : List Char), c ≠ 'Z' := by
  intro c hc
  cases hc

theorem noZ_two (a : Nat) : ∀ c ∈ two a, c ≠ 'Z' := by
  intro c hc
  simp only [two, List.mem_cons, List.not_mem_nil, or_false] at hc
  rcases hc with rfl | rfl <;> exact digitChar_ne_Z _

theorem noZ_four (a : Nat) : ∀ c ∈ four a, c ≠ 'Z' := by
  intro c hc
  simp only [four, List.mem_cons, List.not_mem_nil, or_false] at hc
  rcases hc with rfl | rfl | rfl | rfl <;> exact digitChar_ne_Z _

theorem noZ_six (a : Nat) : ∀ c ∈ six a, c ≠ 'Z' := by
  intro c hc
  simp only [six, List.mem_cons, List.not_mem_nil, or_false] at hc
  rcases hc with rfl | rfl | rfl | rfl | rfl | rfl <;> exact digitChar_ne_Z _

theorem noZ_frac (u : Nat) : ∀ c ∈ fracChars u, c ≠ 'Z' := by
  unfold fracChars
  split
  · exact noZ_nil
  · exact noZ_cons (by decide) (noZ_six u)

theorem noZ_tz (tz : Option Int) : ∀ c ∈ tzChars tz, c ≠ 'Z' := by
  rcases tz with _ | o
  · exact noZ_nil
  · simp only [tzChars]
    by_cases hneg : o < 0
    · rw [if_pos hneg]
      exact noZ_cons (by decide)
        (noZ_append (noZ_two _) (noZ_cons (by decide) (noZ_two _)))
    · rw [if_neg hneg]
      exact noZ_cons (by decide)
        (noZ_append (noZ_two _) (noZ_cons (by decide) (noZ_two _)))

theorem noZ_isoformat (dt : PyDateTime) : ∀ c ∈ isoformatChars dt, c ≠ 'Z' := by
  unfold isoformatChars
  exact noZ_append (noZ_append (noZ_append (noZ_append (noZ_append (noZ_append
    (noZ_append (noZ_four _) (noZ_cons (by decide) (noZ_two _)))
    (noZ_cons (by decide) (noZ_two _)))
    (noZ_cons (by decide) (noZ_two _)))
    (noZ_cons (by decide) (noZ_two _)))
    (noZ_cons (by decide) (noZ_two _)))
    (noZ_frac _))
    (noZ_tz _)

theorem pyReplaceZ_of_noZ (l : List Char) (h : ∀ c ∈ l, c ≠ 'Z') :
    pyReplaceZ l = l := by
  induction l with
  | nil => rfl
  | cons c rest ih =>
    have hc : c ≠ 'Z' := h c (List.mem_cons_self c rest)
    simp only [pyReplaceZ, if_neg hc]
    rw [ih fun x hx => h x (List.mem_cons_of_mem c hx)]

theorem pyReplaceZ_isoformat (dt : PyDateTime) :
    pyReplaceZ (isoformatChars dt) = isoformatChars dt :=
  pyReplaceZ_of_noZ _ (noZ_isoformat dt)

theorem parseTsField_roundtrip (o : Option PyDateTime) (h : OptValidDT o) :
    parseTsField (o.map isoformat) = some o := by
  rcases o with _ | dt
  · rfl
  · show parseTsField (some (isoformat dt)) = some (some dt)
    simp only [parseTsField]
    rw [show (isoformat dt).data = isoformatChars dt from rfl,
        pyReplaceZ_isoformat, fromiso_isoformat dt (h dt rfl)]
    rfl

theorem project_roundtrip (p : Project) (hca : OptValidDT p.created_at)
    (hua : OptValidDT p.updated_at) :
    Project.from_dict (Project.to_dict p) = some p := by
  simp only [Project.to_dict, Project.from_dict]
  rw [parseTsField_roundtrip p.created_at hca, parseTsField_roundtrip p.updated_at hua]
  rfl

theorem text_source_roundtrip (t : TextSource) (hca : OptValidDT t.created_at)
    (hua : OptValidDT t.updated_at) :
    TextSource.from_dict (TextSource.to_dict t) = some t := by
  simp only [TextSource.to_dict, TextSource.from_dict]
  rw [parseTsField_roundtrip t.created_at hca, parseTsField_roundtrip t.updated_at hua]
  rfl

theorem summary_roundtrip (s : Summary) (hca : OptValidDT s.created_at)
    (hua : OptValidDT s.updated_at) :
    Summary.from_dict (Summary.to_dict s) = some s := by
  simp only [Summary.to_dict, Summary.from_dict]
  rw [parseTsField_roundtrip s.created_at hca, parseTsField_roundtrip s.updated_at hua]
  rfl

theorem translation_roundtrip (t : Translation) (hca : OptValidDT t.created_at)
    (hua : OptValidDT t.updated_at) :
    Translation.from_dict (Translation.to_dict t) = some t := by
  simp only [Translation.to_dict, Translation.from_dict]
  rw [parseTsField_roundtrip t.created_at hca, parseTsField_roundtrip t.updated_at hua]
  rfl

theorem video_roundtrip (v : Video) (hca : OptValidDT v.created_at)
    (hua : OptValidDT v.updated_at) :
    Video.from_dict (Video.to_dict v) = some v := by
  simp only [Video.to_dict, Video.from_dict]
  rw [parseTsField_roundtrip v.created_at hca, parseTsField_roundtrip v.updated_at hua]
  rfl

theorem link_roundtrip (l : Link) (hca : OptValidDT l.created_at)
    (hua : OptValidDT l.updated_at) :
    Link.from_dict (Link.to_dict l) = some l := by
  simp only [Link.to_dict, Link.from_dict]
  rw [parseTsField_roundtrip l.created_at hca, parseTsField_roundtrip l.updated_at hua]
  rfl

theorem optValidDT_some {dt : PyDateTime} (h : dt.Valid) : OptValidDT (some dt) := by
  intro x hx
  rw [Option.mem_def] at hx
  cases hx
  exact h

/-- C6: for every entity, serializing with `to_dict` and deserializing with
`from_dict` reproduces an entity equal in every field; `created_at` and
`updated_at` round-trip through ISO-8601 strings to the same instant, and
the metadata map is preserved unchanged. -/
theorem claim_C6_serialization_roundtrip :
    (∀ p : Project, OptValidDT p.created_at → OptValidDT p.updated_at →
      Project.from_dict (Project.to_dict p) = some p) ∧
    (∀ t : TextSource, OptValidDT t.created_at → OptValidDT t.updated_at →
      TextSource.from_dict (TextSource.to_dict t) = some t) ∧
    (∀ s : Summary, OptValidDT s.created_at → OptValidDT s.updated_at →
      Summary.from_dict (Summary.to_dict s) = some s) ∧
    (∀ t : Translation, OptValidDT t.created_at → OptValidDT t.updated_at →
      Translation.from_dict (Translation.to_dict t) = some t) ∧
    (∀ v : Video, OptValidDT v.created_at → OptValidDT v.updated_at →
      Video.from_dict (Video.to_dict v) = some v) ∧
    (∀ l : Link, OptValidDT l.created_at → OptValidDT l.updated_at →
      Link.from_dict (Link.to_dict l) = some l) :=
  ⟨project_roundtrip, text_source_roundtrip, summary_roundtrip,
   translation_roundtrip, video_roundtrip, link_roundtrip⟩

/-- Witness for C6: a concrete project with a naive creation timestamp, an
aware update timestamp carrying microseconds and a negative UTC offset, and
a non-empty metadata map, round-trips exactly. -/
theorem claim_C6_witness :
    Project.from_dict (Project.to_dict
      { id := some 7,
        created_at := some ⟨2024, 1, 2, 3, 4, 5, 0, Option.none⟩,
        updated_at := some ⟨2024, 12, 31, 23, 59, 59, 999999, some (-330)⟩,
        metadata := [("k", PyVal.str "v")],
        name := "P", description := "D" }) =
    some
      { id := some 7,
        created_at := some ⟨2024, 1, 2, 3, 4, 5, 0, Option.none⟩,
        updated_at := some ⟨2024, 12, 31, 23, 59, 59, 999999, some (-330)⟩,
        metadata := [("k", PyVal.str "v")],
        name := "P", description := "D" } :=
  claim_C6_serialization_roundtrip.1 _
    (optValidDT_some (by decide)) (optValidDT_some (by decide))

/-- C4: for every `Translation` with a non-empty token list,
`get_token_text()` returns the token strings sorted in ascending order of
their `pos` field, joined by single spaces. -/
theorem claim_C4_get_token_text (t : Translation) (h : t.tokens ≠ []) :
    ∃ ts : List PyToken, ts.Perm t.tokens ∧ List.Sorted tokenLe ts ∧
      t.get_token_text =
        String.intercalate " " (ts.map fun tok => tok.token.getD "") := by
  refine ⟨List.insertionSort tokenLe t.tokens, List.perm_insertionSort _ _,
    List.sorted_insertionSort _ _, ?_⟩
  simp only [Translation.get_token_text, if_neg h]

/-- Witness for C4: the spec's example
`tokens = [⟨Hola, 0⟩, ⟨Mundo, 1⟩]` yields `"Hola Mundo"`, and the sorted
decomposition exists for it. -/
theorem claim_C4_witness :
    (Translation.get_token_text
      { text_source_id := 1, language_code := "es",
        tokens := [⟨some "Hola", some 0⟩, ⟨some "Mundo", some 1⟩] } =
      "Hola Mundo") ∧
    ∃ ts : List PyToken,
      ts.Perm [⟨some "Hola", some 0⟩, ⟨some "Mundo", some 1⟩] ∧
      List.Sorted tokenLe ts ∧
      Translation.get_token_text
        { text_source_id := 1, language_code := "es",
          tokens := [⟨some "Hola", some 0⟩, ⟨some "Mundo", some 1⟩] } =
        String.intercalate " " (ts.map fun tok => tok.token.getD "") :=
  ⟨by decide,
   claim_C4_get_token_text
     { text_source_id := 1, language_code := "es",
       tokens := [⟨some "Hola", some 0⟩, ⟨some "Mundo", some 1⟩] }
     (by decide)⟩

/-- C10: a `Video` whose `file_size` is `0` gets `None` from
`get_file_size_mb()` — the same result as an unset size — because `0` is
falsy in the `if self.file_size` guard, while any positive size is divided
by 1048576. -/
theorem claim_C10_file_size_mb (v : Video) :
    (v.file_size = some 0 → v.get_file_size_mb = Option.none) ∧
    (v.file_size = Option.none → v.get_file_size_mb = Option.none) ∧
    (∀ n : Int, v.file_size = some n → 0 < n →
      v.get_file_size_mb = some ((n : ℚ) / 1048576)) := by
  refine ⟨?_, ?_, ?_⟩
  · intro h
    simp [Video.get_file_size_mb, h]
  · intro h
    simp [Video.get_file_size_mb, h]
  · intro n h hn
    have hne : n ≠ 0 := by omega
    simp only [Video.get_file_size_mb, h, if_pos hne]
    norm_num

/-- Witness for C10: a zero-byte video maps to `None` and a 2 MiB video to
`2.0`. -/
theorem claim_C10_witness :
    Video.get_file_size_mb
      { text_source_id := 1, file_path := "f", file_size := some 0 } =
      Option.none ∧
    Video.get_file_size_mb
      { text_source_id := 1, file_path := "f", file_size := some 2097152 } =
      some 2 := by
  constructor
  · exact (claim_C10_file_size_mb _).1 rfl
  · have h := (claim_C10_file_size_mb
      { text_source_id := 1, file_path := "f", file_size := some 2097152 }).2.2
      2097152 rfl (by norm_num)
    rw [h]
    norm_num

/-- C5 (code bug): the spec describes the identity-based equality written
in `BaseModel.__eq__`, but every concrete entity class is a `@dataclass`
that does not define `__eq__` in its own body, so the decorator installs a
generated field-tuple `__eq__` that shadows the base method.  At the
failing inputs: two `Project`s with the same assigned id but different
names compare unequal (the claim says equal), and two identity-less
`Project`s with identical fields compare equal (the claim says never
equal); `baseModelEqAsWritten` records what the shadowed base method — and
the claim — would answer. -/
theorem claim_C5_equality_divergence :
    (Project.pyEq { id := some 1, name := "a" } { id := some 1, name := "b" } =
      false ∧
     baseModelEqAsWritten true (some 1) (some 1) false = true) ∧
    (Project.pyEq { name := "x" } { name := "x" } = true ∧
     ({ name := "x" } : Project).id = Option.none ∧
     baseModelEqAsWritten true Option.none Option.none false = false) := by
  decide

theorem projectExists_eq_false {st : DBState} {pid : Int}
    (h : ∀ p ∈ st.projects, p.id ≠ some pid) : projectExists st pid = false := by
  simp only [projectExists, List.any_eq_false]
  intro p hp
  simpa using h p hp

theorem textSourceExists_eq_false {st : DBState} {tsid : Int}
    (h : ∀ t ∈ st.textSources, t.id ≠ some tsid) :
    textSourceExists st tsid = false := by
  simp only [textSourceExists, List.any_eq_false]
  intro t ht
  simpa using h t ht

/-- C1: every child-entity `create` whose referenced parent id has no
existing row raises `NotFoundError` carrying the parent's entity kind and
the missing identifier, and inserts nothing (the hypothesis that the
candidate itself validates isolates the referential-integrity path, which
runs after `validate()`). -/
theorem claim_C1_create_missing_parent :
    (∀ (st : DBState) (d : TextSource), d.validate = .ok () →
      (∀ p ∈ st.projects, p.id ≠ some d.project_id) →
      TextSourceRepository.create st d =
        .error (.notFoundError "Project" d.project_id) ∧
      resultState (TextSourceRepository.create st d) st = st) ∧
    (∀ (st : DBState) (d : Summary), d.validate = .ok () →
      (∀ t ∈ st.textSources, t.id ≠ some d.text_source_id) →
      SummaryRepository.create st d =
        .error (.notFoundError "TextSource" d.text_source_id) ∧
      resultState (SummaryRepository.create st d) st = st) ∧
    (∀ (st : DBState) (d : Translation), d.validate = .ok () →
      (∀ t ∈ st.textSources, t.id ≠ some d.text_source_id) →
      TranslationRepository.create st d =
        .error (.notFoundError "TextSource" d.text_source_id) ∧
      resultState (TranslationRepository.create st d) st = st) ∧
    (∀ (st : DBState) (d : Video), d.validate = .ok () →
      (∀ t ∈ st.textSources, t.id ≠ some d.text_source_id) →
      VideoRepository.create st d =
        .error (.notFoundError "TextSource" d.text_source_id) ∧
      resultState (VideoRepository.create st d) st = st) ∧
    (∀ (st : DBState) (d : Link), d.validate = .ok () →
      (∀ t ∈ st.textSources, t.id ≠ some d.text_source_id) →
      LinkRepository.create st d =
        .error (.notFoundError "TextSource" d.text_source_id) ∧
      resultState (LinkRepository.create st d) st = st) := by
  refine ⟨?_, ?_, ?_, ?_, ?_⟩ <;> intro st d hv hp
  · have hex := projectExists_eq_false hp
    have h1 : TextSourceRepository.create st d =
        .error (.notFoundError "Project" d.project_id) := by
      simp [TextSourceRepository.create, hv, hex]
      rfl
    exact ⟨h1, by rw [h1]; rfl⟩
  · have hex := textSourceExists_eq_false hp
    have h1 : SummaryRepository.create st d =
        .error (.notFoundError "TextSource" d.text_source_id) := by
      simp [SummaryRepository.create, hv, hex]
      rfl
    exact ⟨h1, by rw [h1]; rfl⟩
  · have hex := textSourceExists_eq_false hp
    have h1 : TranslationRepository.create st d =
        .error (.notFoundError "TextSource" d.text_source_id) := by
      simp [TranslationRepository.create, hv, hex]
      rfl
    exact ⟨h1, by rw [h1]; rfl⟩
  · have hex := textSourceExists_eq_false hp
    have h1 : VideoRepository.create st d =
        .error (.notFoundError "TextSource" d.text_source_id) := by
      simp [VideoRepository.create, hv, hex]
      rfl
    exact ⟨h1, by rw [h1]; rfl⟩
  · have hex := textSourceExists_eq_false hp
    have h1 : LinkRepository.create st d =
        .error (.notFoundError "TextSource" d.text_source_id) := by
      simp [LinkRepository.create, hv, hex]
      rfl
    exact ⟨h1, by rw [h1]; rfl⟩

/-- Witness for C1: the spec's example — creating a `TextSource` with
`project_id = 9999` against a database with no projects raises
`NotFoundError("Project", 9999)`. -/
theorem claim_C1_witness :
    TextSourceRepository.create
      ⟨[], [], [], [], [], [], 1, 1, 1, 1, 1, 1, ⟨2024, 1, 1, 0, 0, 0, 0, Option.none⟩⟩
      { project_id := 9999, title := "T", content := "C" } =
      .error (.notFoundError "Project" 9999) :=
  (claim_C1_create_missing_parent.1 _ _ (by rfl) (by simp)).1

theorem firstError_ok {α : Type} (f : α → Except PyErr Unit) (l : List α)
    (h : ∀ x ∈ l, f x = .ok ()) : firstError f l = .ok () := by
  induction l with
  | nil => rfl
  | cons a rest ih =>
    have h1 : firstError f (a :: rest) =
        Except.bind (f a) (fun _ => firstError f rest) := rfl
    rw [h1, h a (List.mem_cons_self a rest)]
    show firstError f rest = .ok ()
    exact ih fun x hx => h x (List.mem_cons_of_mem a hx)

theorem find?_first {α : Type} (p : α → Bool) (pre : List α) (d : α)
    (post : List α) (hpre : ∀ x ∈ pre, p x = false) (hd : p d = true) :
    (pre ++ d :: post).find? p = some d := by
  induction pre with
  | nil => simp [List.find?, hd]
  | cons a rest ih =>
    have ha := hpre a (List.mem_cons_self a rest)
    show List.find? p (a :: (rest ++ d :: post)) = some d
    simp only [List.find?, ha]
    exact ih fun x hx => hpre x (List.mem_cons_of_mem a hx)

/-- C2: in every `bulk_create` batch the candidates are all validated
first, then all referenced parents are checked before any insert; a batch
containing an item with a missing parent raises `NotFoundError` naming the
first missing parent in input order, and inserts zero rows.  The batch is
written `pre ++ d :: post` with every parent in `pre` existing and `d` the
first item whose parent is missing. -/
theorem claim_C2_bulk_create_atomic :
    (∀ (st : DBState) (pre post : List TextSource) (d : TextSource),
      (∀ x ∈ pre ++ d :: post, x.validate = .ok ()) →
      (∀ x ∈ pre, projectExists st x.project_id = true) →
      projectExists st d.project_id = false →
      TextSourceRepository.bulk_create st (pre ++ d :: post) =
        .error (.notFoundError "Project" d.project_id) ∧
      resultState (TextSourceRepository.bulk_create st (pre ++ d :: post)) st = st) ∧
    (∀ (st : DBState) (pre post : List Summary) (d : Summary),
      (∀ x ∈ pre ++ d :: post, x.validate = .ok ()) →
      (∀ x ∈ pre, textSourceExists st x.text_source_id = true) →
      textSourceExists st d.text_source_id = false →
      SummaryRepository.bulk_create st (pre ++ d :: post) =
        .error (.notFoundError "TextSource" d.text_source_id) ∧
      resultState (SummaryRepository.bulk_create st (pre ++ d :: post)) st = st) ∧
    (∀ (st : DBState) (pre post : List Translation) (d : Translation),
      (∀ x ∈ pre ++ d :: post, x.validate = .ok ()) →
      (∀ x ∈ pre, textSourceExists st x.text_source_id = true) →
      textSourceExists st d.text_source_id = false →
      TranslationRepository.bulk_create st (pre ++ d :: post) =
        .error (.notFoundError "TextSource" d.text_source_id) ∧
      resultState (TranslationRepository.bulk_create st (pre ++ d :: post)) st = st) ∧
    (∀ (st : DBState) (pre post : List Video) (d : Video),
      (∀ x ∈ pre ++ d :: post, x.validate = .ok ()) →
      (∀ x ∈ pre, textSourceExists st x.text_source_id = true) →
      textSourceExists st d.text_source_id = false →
      VideoRepository.bulk_create st (pre ++ d :: post) =
        .error (.notFoundError "TextSource" d.text_source_id) ∧
      resultState (VideoRepository.bulk_create st (pre ++ d :: post)) st = st) ∧
    (∀ (st : DBState) (pre post : List Link) (d : Link),
      (∀ x ∈ pre ++ d :: post, x.validate = .ok ()) →
      (∀ x ∈ pre, textSourceExists st x.text_source_id = true) →
      textSourceExists st d.text_source_id = false →
      LinkRepository.bulk_create st (pre ++ d :: post) =
        .error (.notFoundError "TextSource" d.text_source_id) ∧
      resultState (LinkRepository.bulk_create st (pre ++ d :: post)) st = st) := by
  refine ⟨?_, ?_, ?_, ?_, ?_⟩ <;> intro st pre post d hval hpre hd <;>
    [skip; skip; skip; skip; skip]
  · have hne : pre ++ d :: post ≠ [] := by simp
    have hfe := firstError_ok TextSource.validate _ hval
    have hfind := find?_first (fun x => !projectExists st x.project_id) pre d post
      (fun x hx => by simp [hpre x hx]) (by simp [hd])
    have h1 : TextSourceRepository.bulk_create st (pre ++ d :: post) =
        .error (.notFoundError "Project" d.project_id) := by
      simp only [TextSourceRepository.bulk_create, if_neg hne, hfe, hfind]
      rfl
    exact ⟨h1, by rw [h1]; rfl⟩
  · have hne : pre ++ d :: post ≠ [] := by simp
    have hfe := firstError_ok Summary.validate _ hval
    have hfind := find?_first (fun x => !textSourceExists st x.text_source_id) pre d post
      (fun x hx => by simp [hpre x hx]) (by simp [hd])
    have h1 : SummaryRepository.bulk_create st (pre ++ d :: post) =
        .error (.notFoundError "TextSource" d.text_source_id) := by
      simp only [SummaryRepository.bulk_create, if_neg hne, hfe, hfind]
      rfl
    exact ⟨h1, by rw [h1]; rfl⟩
  · have hne : pre ++ d :: post ≠ [] := by simp
    have hfe := firstError_ok Translation.validate _ hval
    have hfind := find?_first (fun x => !textSourceExists st x.text_source_id) pre d post
      (fun x hx => by simp [hpre x hx]) (by simp [hd])
    have h1 : TranslationRepository.bulk_create st (pre ++ d :: post) =
        .error (.notFoundError "TextSource" d.text_source_id) := by
      simp only [TranslationRepository.bulk_create, if_neg hne, hfe, hfind]
      rfl
    exact ⟨h1, by rw [h1]; rfl⟩
  · have hne : pre ++ d :: post ≠ [] := by simp
    have hfe := firstError_ok Video.validate _ hval
    have hfind := find?_first (fun x => !textSourceExists st x.text_source_id) pre d post
      (fun x hx => by simp [hpre x hx]) (by simp [hd])
    have h1 : VideoRepository.bulk_create st (pre ++ d :: post) =
        .error (.notFoundError "TextSource" d.text_source_id) := by
      simp only [VideoRepository.bulk_create, if_neg hne, hfe, hfind]
      rfl
    exact ⟨h1, by rw [h1]; rfl⟩
  · have hne : pre ++ d :: post ≠ [] := by simp
    have hfe := firstError_ok Link.validate _ hval
    have hfind := find?_first (fun x => !textSourceExists st x.text_source_id) pre d post
      (fun x hx => by simp [hpre x hx]) (by simp [hd])
    have h1 : LinkRepository.bulk_create st (pre ++ d :: post) =
        .error (.notFoundError "TextSource" d.text_source_id) := by
      simp only [LinkRepository.bulk_create, if_neg hne, hfe, hfind]
      rfl
    exact ⟨h1, by rw [h1]; rfl⟩

/-- Witness for C2: a three-item translation batch whose second and third
items reference missing text sources aborts with `NotFoundError` naming
the second item's parent (the first missing in input order), against a
database holding one text source with id 1. -/
theorem claim_C2_witness :
    TranslationRepository.bulk_create
      ⟨[], [{ id := some 1, project_id := 1, title := "t", content := "c" }],
       [], [], [], [], 2, 2, 1, 1, 1, 1, ⟨2024, 1, 1, 0, 0, 0, 0, Option.none⟩⟩
      ([{ text_source_id := 1, language_code := "es",
          tokens := [⟨some "a", some 0⟩] }] ++
        { text_source_id := 9999, language_code := "es",
          tokens := [⟨some "b", some 0⟩] } ::
        [{ text_source_id := 8888, language_code := "es",
           tokens := [⟨some "c", some 0⟩] }]) =
      .error (.notFoundError "TextSource" 9999) :=
  (claim_C2_bulk_create_atomic.2.2.1 _ _ _ _
    (by intro x hx; simp at hx; rcases hx with rfl | rfl | rfl <;> rfl)
    (by intro x hx; simp at hx; subst hx; rfl)
    (by rfl)).1

theorem strLenOver_false {s : String} {n : Nat} (h : s.length ≤ n) :
    strLenOver s n = false := by
  unfold strLenOver
  have hd : decide (s.length > n) = false := decide_eq_false (by omega)
  simp [hd]

theorem strLenOver_true {s : String} {n : Nat} (h : s.length > n)
    (hne : s ≠ "") : strLenOver s n = true := by
  unfold strLenOver
  have h1 : (s == "") = false := by simp [hne]
  have h2 : decide (s.length > n) = true := decide_eq_true h
  simp [h1, h2]

theorem optLenOver_some_false {s : String} {n : Nat} (h : s.length ≤ n) :
    optLenOver (some s) n = false := by
  simp [optLenOver, strLenOver_false h]

theorem optLenOver_some_true {s : String} {n : Nat} (h : s.length > n)
    (hne : s ≠ "") : optLenOver (some s) n = true := by
  simp [optLenOver, strLenOver_true h hne]

theorem ne_empty_of_length_pos {s : String} (h : 0 < s.length) : s ≠ "" := by
  intro he
  subst he
  exact absurd h (by decide)

theorem not_required_fail {s : String} (h : pyBlank s = false) :
    ¬(s = "" ∨ pyBlank s = true) := by
  rintro (rfl | hb)
  · exact absurd h (by decide)
  · rw [h] at hb
    exact absurd hb (by decide)

theorem vbl_project_name_ok (s : String) (h1 : s.length = 255)
    (h2 : pyBlank s = false) : Project.validate { name := s } = .ok () := by
  unfold Project.validate
  dsimp only
  rw [if_neg (not_required_fail h2), if_neg (by omega), if_neg (by decide)]

theorem vbl_project_name_over (s : String) (h1 : s.length = 256) :
    namesField "name" (Project.validate { name := s }) := by
  unfold Project.validate
  dsimp only
  by_cases hb : s = "" ∨ pyBlank s = true
  · rw [if_pos hb]
    exact ⟨_, rfl⟩
  · rw [if_neg hb, if_pos (by omega)]
    exact ⟨_, rfl⟩

theorem vbl_project_description_ok (s : String) (h1 : s.length = 10000) :
    Project.validate { name := "x", description := s } = .ok () := by
  unfold Project.validate
  dsimp only
  rw [if_neg (not_required_fail (by decide)), if_neg (by decide),
      if_neg (by simp [strLenOver_false (show s.length ≤ 10000 by omega)])]

theorem vbl_project_description_over (s : String) (h1 : s.length = 10001) :
    namesField "description" (Project.validate { name := "x", description := s }) := by
  unfold Project.validate
  dsimp only
  rw [if_neg (not_required_fail (by decide)), if_neg (by decide),
      if_pos (by simp [strLenOver_true (show s.length > 10000 by omega)
        (ne_empty_of_length_pos (by omega))])]
  exact ⟨_, rfl⟩

theorem vbl_text_source_title_ok (s : String) (h1 : s.length = 255)
    (h2 : pyBlank s = false) :
    TextSource.validate { project_id := 1, title := s, content := "c" } = .ok () := by
  unfold TextSource.validate
  dsimp only
  rw [if_neg (by omega), if_neg (not_required_fail h2), if_neg (by omega),
      if_neg (not_required_fail (by decide)), if_neg (by decide), if_neg (by decide)]

theorem vbl_text_source_title_over (s : String) (h1 : s.length = 256) :
    namesField "title"
      (TextSource.validate { project_id := 1, title := s, content := "c" }) := by
  unfold TextSource.validate
  dsimp only
  rw [if_neg (by omega)]
  by_cases hb : s = "" ∨ pyBlank s = true
  · rw [if_pos hb]
    exact ⟨_, rfl⟩
  · rw [if_neg hb, if_pos (by omega)]
    exact ⟨_, rfl⟩

theorem vbl_text_source_source_type_ok (s : String) (h1 : s.length = 50) :
    TextSource.validate
      { project_id := 1, title := "t", content := "c", source_type := s } = .ok () := by
  unfold TextSource.validate
  dsimp only
  rw [if_neg (by omega), if_neg (not_required_fail (by decide)), if_neg (by decide),
      if_neg (not_required_fail (by decide)),
      if_neg (by simp [strLenOver_false (show s.length ≤ 50 by omega)]),
      if_neg (by decide)]

theorem vbl_text_source_source_type_over (s : String) (h1 : s.length = 51) :
    namesField "source_type"
      (TextSource.validate
        { project_id := 1, title := "t", content := "c", source_type := s }) := by
  unfold TextSource.validate
  dsimp only
  rw [if_neg (by omega), if_neg (not_required_fail (by decide)), if_neg (by decide),
      if_neg (not_required_fail (by decide)),
      if_pos (by simp [strLenOver_true (show s.length > 50 by omega)
        (ne_empty_of_length_pos (by omega))])]
  exact ⟨_, rfl⟩

theorem vbl_text_source_source_url_ok (s : String) (h1 : s.length = 500) :
    TextSource.validate
      { project_id := 1, title := "t", content := "c", source_url := some s } = .ok () := by
  unfold TextSource.validate
  dsimp only
  rw [if_neg (by omega), if_neg (not_required_fail (by decide)), if_neg (by decide),
      if_neg (not_required_fail (by decide)), if_neg (by decide),
      if_neg (by simp [optLenOver_some_false (show s.length ≤ 500 by omega)])]

theorem vbl_text_source_source_url_over (s : String) (h1 : s.length = 501) :
    namesField "source_url"
      (TextSource.validate
        { project_id := 1, title := "t", content := "c", source_url := some s }) := by
  unfold TextSource.validate
  dsimp only
  rw [if_neg (by omega), if_neg (not_required_fail (by decide)), if_neg (by decide),
      if_neg (not_required_fail (by decide)), if_neg (by decide),
      if_pos (by simp [optLenOver_some_true (show s.length > 500 by omega)
        (ne_empty_of_length_pos (by omega))])]
  exact ⟨_, rfl⟩

theorem vbl_summary_title_ok (s : String) (h1 : s.length = 255) :
    Summary.validate { text_source_id := 1, content := "c", title := some s } = .ok () := by
  unfold Summary.validate
  dsimp only
  rw [if_neg (by omega), if_neg (not_required_fail (by decide)),
      if_neg (by simp [optLenOver_some_false (show s.length ≤ 255 by omega)]),
      if_neg (by decide)]

theorem vbl_summary_title_over (s : String) (h1 : s.length = 256) :
    namesField "title"
      (Summary.validate { text_source_id := 1, content := "c", title := some s }) := by
  unfold Summary.validate
  dsimp only
  rw [if_neg (by omega), if_neg (not_required_fail (by decide)),
      if_pos (by simp [optLenOver_some_true (show s.length > 255 by omega)
        (ne_empty_of_length_pos (by omega))])]
  exact ⟨_, rfl⟩

theorem vbl_summary_summary_type_ok (s : String) (h1 : s.length = 50) :
    Summary.validate { text_source_id := 1, content := "c", summary_type := s } = .ok () := by
  unfold Summary.validate
  dsimp only
  rw [if_neg (by omega), if_neg (not_required_fail (by decide)), if_neg (by decide),
      if_neg (by simp [strLenOver_false (show s.length ≤ 50 by omega)])]

theorem vbl_summary_summary_type_over (s : String) (h1 : s.length = 51) :
    namesField "summary_type"
      (Summary.validate { text_source_id := 1, content := "c", summary_type := s }) := by
  unfold Summary.validate
  dsimp only
  rw [if_neg (by omega), if_neg (not_required_fail (by decide)), if_neg (by decide),
      if_pos (by simp [strLenOver_true (show s.length > 50 by omega)
        (ne_empty_of_length_pos (by omega))])]
  exact ⟨_, rfl⟩

theorem vbl_translation_language_code_ok (s : String) (h1 : s.length = 10)
    (h2 : pyBlank s = false) :
    Translation.validate
      { text_source_id := 1, language_code := s,
        tokens := [⟨some "a", some 0⟩] } = .ok () := by
  unfold Translation.validate
  dsimp only
  rw [if_neg (by omega), if_neg (not_required_fail h2), if_neg (by omega),
      if_neg (by decide), if_neg (by decide)]
  rfl

theorem vbl_translation_language_code_over (s : String) (h1 : s.length = 11) :
    namesField "language_code"
      (Translation.validate
        { text_source_id := 1, language_code := s,
          tokens := [⟨some "a", some 0⟩] }) := by
  unfold Translation.validate
  dsimp only
  rw [if_neg (by omega)]
  by_cases hb : s = "" ∨ pyBlank s = true
  · rw [if_pos hb]
    exact ⟨_, rfl⟩
  · rw [if_neg hb, if_pos (by omega)]
    exact ⟨_, rfl⟩

theorem vbl_translation_title_ok (s : String) (h1 : s.length = 255) :
    Translation.validate
      { text_source_id := 1, language_code := "es", title := some s,
        tokens := [⟨some "a", some 0⟩] } = .ok () := by
  unfold Translation.validate
  dsimp only
  rw [if_neg (by omega), if_neg (not_required_fail (by decide)), if_neg (by decide),
      if_neg (by simp [optLenOver_some_false (show s.length ≤ 255 by omega)]),
      if_neg (by decide)]
  rfl

theorem vbl_translation_title_over (s : String) (h1 : s.length = 256) :
    namesField "title"
      (Translation.validate
        { text_source_id := 1, language_code := "es", title := some s,
          tokens := [⟨some "a", some 0⟩] }) := by
  unfold Translation.validate
  dsimp only
  rw [if_neg (by omega), if_neg (not_required_fail (by decide)), if_neg (by decide),
      if_pos (by simp [optLenOver_some_true (show s.length > 255 by omega)
        (ne_empty_of_length_pos (by omega))])]
  exact ⟨_, rfl⟩

theorem vbl_video_file_path_ok (s : String) (h1 : s.length = 500)
    (h2 : pyBlank s = false) :
    Video.validate { text_source_id := 1, file_path := s } = .ok () := by
  unfold Video.validate
  dsimp only
  rw [if_neg (by omega), if_neg (not_required_fail h2), if_neg (by omega),
      if_neg (by decide), if_neg (by decide), if_neg (by decide),
      if_neg (by decide), if_neg (by decide), if_neg (by decide)]

theorem vbl_video_file_path_over (s : String) (h1 : s.length = 501) :
    namesField "file_path"
      (Video.validate { text_source_id := 1, file_path := s }) := by
  unfold Video.validate
  dsimp only
  rw [if_neg (by omega)]
  by_cases hb : s = "" ∨ pyBlank s = true
  · rw [if_pos hb]
    exact ⟨_, rfl⟩
  · rw [if_neg hb, if_pos (by omega)]
    exact ⟨_, rfl⟩

theorem vbl_video_title_ok (s : String) (h1 : s.length = 255) :
    Video.validate
      { text_source_id := 1, file_path := "f", title := some s } = .ok () := by
  unfold Video.validate
  dsimp only
  rw [if_neg (by omega), if_neg (not_required_fail (by decide)), if_neg (by decide),
      if_neg (by simp [optLenOver_some_false (show s.length ≤ 255 by omega)]),
      if_neg (by decide), if_neg (by decide), if_neg (by decide),
      if_neg (by decide), if_neg (by decide)]

theorem vbl_video_title_over (s : String) (h1 : s.length = 256) :
    namesField "title"
      (Video.validate
        { text_source_id := 1, file_path := "f", title := some s }) := by
  unfold Video.validate
  dsimp only
  rw [if_neg (by omega), if_neg (not_required_fail (by decide)), if_neg (by decide),
      if_pos (by simp [optLenOver_some_true (show s.length > 255 by omega)
        (ne_empty_of_length_pos (by omega))])]
  exact ⟨_, rfl⟩

theorem vbl_video_file_url_ok (s : String) (h1 : s.length = 500) :
    Video.validate
      { text_source_id := 1, file_path := "f", file_url := some s } = .ok () := by
  unfold Video.validate
  dsimp only
  rw [if_neg (by omega), if_neg (not_required_fail (by decide)), if_neg (by decide),
      if_neg (by decide),
      if_neg (by simp [optLenOver_some_false (show s.length ≤ 500 by omega)]),
      if_neg (by decide), if_neg (by decide), if_neg (by decide), if_neg (by decide)]

theorem vbl_video_file_url_over (s : String) (h1 : s.length = 501) :
    namesField "file_url"
      (Video.validate
        { text_source_id := 1, file_path := "f", file_url := some s }) := by
  unfold Video.validate
  dsimp only
  rw [if_neg (by omega), if_neg (not_required_fail (by decide)), if_neg (by decide),
      if_neg (by decide),
      if_pos (by simp [optLenOver_some_true (show s.length > 500 by omega)
        (ne_empty_of_length_pos (by omega))])]
  exact ⟨_, rfl⟩

theorem vbl_video_format_ok (s : String) (h1 : s.length = 20) :
    Video.validate
      { text_source_id := 1, file_path := "f", format := some s } = .ok () := by
  unfold Video.validate
  dsimp only
  rw [if_neg (by omega), if_neg (not_required_fail (by decide)), if_neg (by decide),
      if_neg (by decide), if_neg (by decide), if_neg (by decide), if_neg (by decide),
      if_neg (by simp [optLenOver_some_false (show s.length ≤ 20 by omega)]),
      if_neg (by decide)]

theorem vbl_video_format_over (s : String) (h1 : s.length = 21) :
    namesField "format"
      (Video.validate
        { text_source_id := 1, file_path := "f", format := some s }) := by
  unfold Video.validate
  dsimp only
  rw [if_neg (by omega), if_neg (not_required_fail (by decide)), if_neg (by decide),
      if_neg (by decide), if_neg (by decide), if_neg (by decide), if_neg (by decide),
      if_pos (by simp [optLenOver_some_true (show s.length > 20 by omega)
        (ne_empty_of_length_pos (by omega))])]
  exact ⟨_, rfl⟩

theorem vbl_video_thumbnail_path_ok (s : String) (h1 : s.length = 500) :
    Video.validate
      { text_source_id := 1, file_path := "f", thumbnail_path := some s } = .ok () := by
  unfold Video.validate
  dsimp only
  rw [if_neg (by omega), if_neg (not_required_fail (by decide)), if_neg (by decide),
      if_neg (by decide), if_neg (by decide), if_neg (by decide), if_neg (by decide),
      if_neg (by decide),
      if_neg (by simp [optLenOver_some_false (show s.length ≤ 500 by omega)])]

theorem vbl_video_thumbnail_path_over (s : String) (h1 : s.length = 501) :
    namesField "thumbnail_path"
      (Video.validate
        { text_source_id := 1, file_path := "f", thumbnail_path := some s }) := by
  unfold Video.validate
  dsimp only
  rw [if_neg (by omega), if_neg (not_required_fail (by decide)), if_neg (by decide),
      if_neg (by decide), if_neg (by decide), if_neg (by decide), if_neg (by decide),
      if_neg (by decide),
      if_pos (by simp [optLenOver_some_true (show s.length > 500 by omega)
        (ne_empty_of_length_pos (by omega))])]
  exact ⟨_, rfl⟩

theorem vbl_link_url_ok (s : String) (h1 : s.length = 500)
    (h2 : pyBlank s = false) (h3 : (urlparseSchemeNetloc s.data).1 ≠ [])
    (h4 : (urlparseSchemeNetloc s.data).2 ≠ []) :
    Link.validate { text_source_id := 1, url := s } = .ok () := by
  unfold Link.validate
  dsimp only
  rw [if_neg (by omega), if_neg (not_required_fail h2), if_neg (by omega),
      if_neg (not_or.mpr ⟨h3, h4⟩), if_neg (by decide), if_neg (by decide),
      if_neg (by decide)]

theorem vbl_link_url_over (s : String) (h1 : s.length = 501) :
    namesField "url" (Link.validate { text_source_id := 1, url := s }) := by
  unfold Link.validate
  dsimp only
  rw [if_neg (by omega)]
  by_cases hb : s = "" ∨ pyBlank s = true
  · rw [if_pos hb]
    exact ⟨_, rfl⟩
  · rw [if_neg hb, if_pos (by omega)]
    exact ⟨_, rfl⟩

theorem vbl_link_title_ok (s : String) (h1 : s.length = 255) :
    Link.validate
      { text_source_id := 1, url := "http://e", title := some s } = .ok () := by
  unfold Link.validate
  dsimp only
  rw [if_neg (by omega), if_neg (not_required_fail (by decide)), if_neg (by decide),
      if_neg (by decide),
      if_neg (by simp [optLenOver_some_false (show s.length ≤ 255 by omega)]),
      if_neg (by decide), if_neg (by decide)]

theorem vbl_link_title_over (s : String) (h1 : s.length = 256) :
    namesField "title"
      (Link.validate
        { text_source_id := 1, url := "http://e", title := some s }) := by
  unfold Link.validate
  dsimp only
  rw [if_neg (by omega), if_neg (not_required_fail (by decide)), if_neg (by decide),
      if_neg (by decide),
      if_pos (by simp [optLenOver_some_true (show s.length > 255 by omega)
        (ne_empty_of_length_pos (by omega))])]
  exact ⟨_, rfl⟩

theorem vbl_link_description_ok (s : String) (h1 : s.length = 1000) :
    Link.validate
      { text_source_id := 1, url := "http://e", description := some s } = .ok () := by
  unfold Link.validate
  dsimp only
  rw [if_neg (by omega), if_neg (not_required_fail (by decide)), if_neg (by decide),
      if_neg (by decide), if_neg (by decide),
      if_neg (by simp [optLenOver_some_false (show s.length ≤ 1000 by omega)]),
      if_neg (by decide)]

theorem vbl_link_description_over (s : String) (h1 : s.length = 1001) :
    namesField "description"
      (Link.validate
        { text_source_id := 1, url := "http://e", description := some s }) := by
  unfold Link.validate
  dsimp only
  rw [if_neg (by omega), if_neg (not_required_fail (by decide)), if_neg (by decide),
      if_neg (by decide), if_neg (by decide),
      if_pos (by simp [optLenOver_some_true (show s.length > 1000 by omega)
        (ne_empty_of_length_pos (by omega))])]
  exact ⟨_, rfl⟩

theorem vbl_link_link_type_ok (s : String) (h1 : s.length = 50) :
    Link.validate
      { text_source_id := 1, url := "http://e", link_type := s } = .ok () := by
  unfold Link.validate
  dsimp only
  rw [if_neg (by omega), if_neg (not_required_fail (by decide)), if_neg (by decide),
      if_neg (by decide), if_neg (by decide), if_neg (by decide),
      if_neg (by simp [strLenOver_false (show s.length ≤ 50 by omega)])]

theorem vbl_link_link_type_over (s : String) (h1 : s.length = 51) :
    namesField "link_type"
      (Link.validate
        { text_source_id := 1, url := "http://e", link_type := s }) := by
  unfold Link.validate
  dsimp only
  rw [if_neg (by omega), if_neg (not_required_fail (by decide)), if_neg (by decide),
      if_neg (by decide), if_neg (by decide), if_neg (by decide),
      if_pos (by simp [strLenOver_true (show s.length > 50 by omega)
        (ne_empty_of_length_pos (by omega))])]
  exact ⟨_, rfl⟩

/-- C3: for every length-bounded string field of every entity kind, a
value exactly at the limit validates and a value one character longer
raises `ValidationError` naming that field (the other fields of each probe
entity are held at valid values; required fields additionally carry the
non-blank side condition their own earlier checks impose, and `Link.url`
at the limit must still parse with a scheme and host, as the source
requires of any accepted URL). -/
theorem claim_C3_validation_boundary :
    ((∀ s : String, s.length = 255 → pyBlank s = false →
        Project.validate { name := s } = .ok ()) ∧
     (∀ s : String, s.length = 256 →
        namesField "name" (Project.validate { name := s })) ∧
     (∀ s : String, s.length = 10000 →
        Project.validate { name := "x", description := s } = .ok ()) ∧
     (∀ s : String, s.length = 10001 →
        namesField "description" (Project.validate { name := "x", description := s }))) ∧
    ((∀ s : String, s.length = 255 → pyBlank s = false →
        TextSource.validate { project_id := 1, title := s, content := "c" } = .ok ()) ∧
     (∀ s : String, s.length = 256 →
        namesField "title"
          (TextSource.validate { project_id := 1, title := s, content := "c" })) ∧
     (∀ s : String, s.length = 50 →
        TextSource.validate
          { project_id := 1, title := "t", content := "c", source_type := s } = .ok ()) ∧
     (∀ s : String, s.length = 51 →
        namesField "source_type"
          (TextSource.validate
            { project_id := 1, title := "t", content := "c", source_type := s })) ∧
     (∀ s : String, s.length = 500 →
        TextSource.validate
          { project_id := 1, title := "t", content := "c", source_url := some s } = .ok ()) ∧
     (∀ s : String, s.length = 501 →
        namesField "source_url"
          (TextSource.validate
            { project_id := 1, title := "t", content := "c", source_url := some s }))) ∧
    ((∀ s : String, s.length = 255 →
        Summary.validate
          { text_source_id := 1, content := "c", title := some s } = .ok ()) ∧
     (∀ s : String, s.length = 256 →
        namesField "title"
          (Summary.validate { text_source_id := 1, content := "c", title := some s })) ∧
     (∀ s : String, s.length = 50 →
        Summary.validate
          { text_source_id := 1, content := "c", summary_type := s } = .ok ()) ∧
     (∀ s : String, s.length = 51 →
        namesField "summary_type"
          (Summary.validate { text_source_id := 1, content := "c", summary_type := s }))) ∧
    ((∀ s : String, s.length = 10 → pyBlank s = false →
        Translation.validate
          { text_source_id := 1, language_code := s,
            tokens := [⟨some "a", some 0⟩] } = .ok ()) ∧
     (∀ s : String, s.length = 11 →
        namesField "language_code"
          (Translation.validate
            { text_source_id := 1, language_code := s,
              tokens := [⟨some "a", some 0⟩] })) ∧
     (∀ s : String, s.length = 255 →
        Translation.validate
          { text_source_id := 1, language_code := "es", title := some s,
            tokens := [⟨some "a", some 0⟩] } = .ok ()) ∧
     (∀ s : String, s.length = 256 →
        namesField "title"
          (Translation.validate
            { text_source_id := 1, language_code := "es", title := some s,
              tokens := [⟨some "a", some 0⟩] }))) ∧
    ((∀ s : String, s.length = 500 → pyBlank s = false →
        Video.validate { text_source_id := 1, file_path := s } = .ok ()) ∧
     (∀ s : String, s.length = 501 →
        namesField "file_path" (Video.validate { text_source_id := 1, file_path := s })) ∧
     (∀ s : String, s.length = 255 →
        Video.validate
          { text_source_id := 1, file_path := "f", title := some s } = .ok ()) ∧
     (∀ s : String, s.length = 256 →
        namesField "title"
          (Video.validate { text_source_id := 1, file_path := "f", title := some s })) ∧
     (∀ s : String, s.length = 500 →
        Video.validate
          { text_source_id := 1, file_path := "f", file_url := some s } = .ok ()) ∧
     (∀ s : String, s.length = 501 →
        namesField "file_url"
          (Video.validate { text_source_id := 1, file_path := "f", file_url := some s })) ∧
     (∀ s : String, s.length = 20 →
        Video.validate
          { text_source_id := 1, file_path := "f", format := some s } = .ok ()) ∧
     (∀ s : String, s.length = 21 →
        namesField "format"
          (Video.validate { text_source_id := 1, file_path := "f", format := some s })) ∧
     (∀ s : String, s.length = 500 →
        Video.validate
          { text_source_id := 1, file_path := "f", thumbnail_path := some s } = .ok ()) ∧
     (∀ s : String, s.length = 501 →
        namesField "thumbnail_path"
          (Video.validate
            { text_source_id := 1, file_path := "f", thumbnail_path := some s }))) ∧
    ((∀ s : String, s.length = 500 → pyBlank s = false →
        (urlparseSchemeNetloc s.data).1 ≠ [] → (urlparseSchemeNetloc s.data).2 ≠ [] →
        Link.validate { text_source_id := 1, url := s } = .ok ()) ∧
     (∀ s : String, s.length = 501 →
        namesField "url" (Link.validate { text_source_id := 1, url := s })) ∧
     (∀ s : String, s.length = 255 →
        Link.validate
          { text_source_id := 1, url := "http://e", title := some s } = .ok ()) ∧
     (∀ s : String, s.length = 256 →
        namesField "title"
          (Link.validate { text_source_id := 1, url := "http://e", title := some s })) ∧
     (∀ s : String, s.length = 1000 →
        Link.validate
          { text_source_id := 1, url := "http://e", description := some s } = .ok ()) ∧
     (∀ s : String, s.length = 1001 →
        namesField "description"
          (Link.validate
            { text_source_id := 1, url := "http://e", description := some s })) ∧
     (∀ s : String, s.length = 50 →
        Link.validate
          { text_source_id := 1, url := "http://e", link_type := s } = .ok ()) ∧
     (∀ s : String, s.length = 51 →
        namesField "link_type"
          (Link.validate { text_source_id := 1, url := "http://e", link_type := s }))) :=
  ⟨⟨vbl_project_name_ok, vbl_project_name_over,
    vbl_project_description_ok, vbl_project_description_over⟩,
   ⟨vbl_text_source_title_ok, vbl_text_source_title_over,
    vbl_text_source_source_type_ok, vbl_text_source_source_type_over,
    vbl_text_source_source_url_ok, vbl_text_source_source_url_over⟩,
   ⟨vbl_summary_title_ok, vbl_summary_title_over,
    vbl_summary_summary_type_ok, vbl_summary_summary_type_over⟩,
   ⟨vbl_translation_language_code_ok, vbl_translation_language_code_over,
    vbl_translation_title_ok, vbl_translation_title_over⟩,
   ⟨vbl_video_file_path_ok, vbl_video_file_path_over,
    vbl_video_title_ok, vbl_video_title_over,
    vbl_video_file_url_ok, vbl_video_file_url_over,
    vbl_video_format_ok, vbl_video_format_over,
    vbl_video_thumbnail_path_ok, vbl_video_thumbnail_path_over⟩,
   ⟨vbl_link_url_ok, vbl_link_url_over,
    vbl_link_title_ok, vbl_link_title_over,
    vbl_link_description_ok, vbl_link_description_over,
    vbl_link_link_type_ok, vbl_link_link_type_over⟩⟩

set_option maxRecDepth 4000 in
/-- Witness for C3: a 255-character project name validates and a
256-character one fails naming `name`; a 20-character video format
validates and a 21-character one fails naming `format`. -/
theorem claim_C3_witness :
    Project.validate { name := String.mk (List.replicate 255 'a') } = .ok () ∧
    namesField "name"
      (Project.validate { name := String.mk (List.replicate 256 'a') }) ∧
    Video.validate
      { text_source_id := 1, file_path := "f",
        format := some (String.mk (List.replicate 20 'x')) } = .ok () ∧
    namesField "format"
      (Video.validate
        { text_source_id := 1, file_path := "f",
          format := some (String.mk (List.replicate 21 'x')) }) :=
  ⟨claim_C3_validation_boundary.1.1 _ (by decide) (by decide),
   claim_C3_validation_boundary.1.2.1 _ (by decide),
   claim_C3_validation_boundary.2.2.2.2.1.2.2.2.2.2.2.1 _ (by decide),
   claim_C3_validation_boundary.2.2.2.2.1.2.2.2.2.2.2.2.1 _ (by decide)⟩

theorem databaseConfig_validate_iff (cfg : DatabaseConfig) :
    cfg.validate = .ok () ↔
      (cfg.host ≠ "" ∧ cfg.database ≠ "" ∧ cfg.username ≠ "" ∧ cfg.password ≠ "" ∧
       1 ≤ cfg.port ∧ cfg.port ≤ 65535 ∧ 0 < cfg.pool_size ∧ 0 ≤ cfg.max_overflow) := by
  unfold DatabaseConfig.validate
  constructor
  · intro h
    split_ifs at h with h1 h2 h3 h4 h5 h6 h7
    all_goals try simp at h
    exact ⟨h1, h2, h3, h4, by omega, by omega, by omega, by omega⟩
  · rintro ⟨c1, c2, c3, c4, c5, c6, c7, c8⟩
    rw [if_neg c1, if_neg c2, if_neg c3, if_neg c4, if_neg (by omega),
        if_neg (by omega), if_neg (by omega)]

theorem databaseConfig_validate_shape (cfg : DatabaseConfig) :
    cfg.validate = .ok () ∨ ∃ m, cfg.validate = .error (.valueError m) := by
  unfold DatabaseConfig.validate
  split_ifs <;> first | (left; rfl) | (right; exact ⟨_, rfl⟩)

/-- Counterexample for C7: an otherwise-valid configuration with
`pool_size = 0` fails validation with Python's built-in `ValueError`, not
with the `ConfigurationError` the claim names (that exception class is
defined in `core/exceptions.py` but never raised). -/
theorem claim_C7_counterexample :
    DatabaseConfig.validate
      { host := "localhost", port := 5432, database := "db",
        username := "u", password := "p", pool_size := 0 } =
      .error (.valueError "Pool size must be greater than 0") ∧
    ∀ m : String,
      DatabaseConfig.validate
        { host := "localhost", port := 5432, database := "db",
          username := "u", password := "p", pool_size := 0 } ≠
        .error (.configurationError m) := by
  constructor
  · rfl
  · intro m h
    simp [DatabaseConfig.validate] at h

/-- C7 (amended): configuration validation runs at handler construction,
before any pool or connection exists, and fails with `ValueError` — not
`ConfigurationError` — whenever host, database, username or password is
missing, the port is outside [1, 65535], `pool_size ≤ 0` or
`max_overflow < 0`; when all these conditions hold it succeeds and the
handler is constructed with no pool yet. -/
theorem claim_C7_config_validation (cfg : DatabaseConfig) :
    (cfg.host ≠ "" → cfg.database ≠ "" → cfg.username ≠ "" → cfg.password ≠ "" →
      1 ≤ cfg.port → cfg.port ≤ 65535 → 0 < cfg.pool_size → 0 ≤ cfg.max_overflow →
      cfg.validate = .ok () ∧
      DatabaseHandler.construct cfg =
        .ok { config := cfg, poolCreated := false, ready := false }) ∧
    ((cfg.host = "" ∨ cfg.database = "" ∨ cfg.username = "" ∨ cfg.password = "" ∨
      cfg.port < 1 ∨ 65535 < cfg.port ∨ cfg.pool_size ≤ 0 ∨ cfg.max_overflow < 0) →
      ∃ m, cfg.validate = .error (.valueError m) ∧
        DatabaseHandler.construct cfg = .error (.valueError m)) := by
  constructor
  · intro c1 c2 c3 c4 c5 c6 c7 c8
    have hok : cfg.validate = .ok () :=
      (databaseConfig_validate_iff cfg).2 ⟨c1, c2, c3, c4, c5, c6, c7, c8⟩
    refine ⟨hok, ?_⟩
    simp only [DatabaseHandler.construct, hok]
    rfl
  · intro hviol
    rcases databaseConfig_validate_shape cfg with hok | ⟨m, herr⟩
    · obtain ⟨c1, c2, c3, c4, c5, c6, c7, c8⟩ :=
        (databaseConfig_validate_iff cfg).1 hok
      rcases hviol with h | h | h | h | h | h | h | h
      · exact absurd h c1
      · exact absurd h c2
      · exact absurd h c3
      · exact absurd h c4
      · omega
      · omega
      · omega
      · omega
    · refine ⟨m, herr, ?_⟩
      simp only [DatabaseHandler.construct, herr]
      rfl

/-- Witness for C7 (amended): a fully valid configuration constructs a
handler with no pool; the `pool_size = 0` configuration fails construction
with a `ValueError`. -/
theorem claim_C7_witness :
    (DatabaseConfig.validate
       { host := "localhost", port := 5432, database := "db",
         username := "u", password := "p" } = .ok () ∧
     DatabaseHandler.construct
       { host := "localhost", port := 5432, database := "db",
         username := "u", password := "p" } =
       .ok { config := { host := "localhost", port := 5432, database := "db",
                         username := "u", password := "p" },
             poolCreated := false, ready := false }) ∧
    ∃ m, DatabaseConfig.validate
        { host := "localhost", port := 5432, database := "db",
          username := "u", password := "p", pool_size := 0 } =
        .error (.valueError m) ∧
      DatabaseHandler.construct
        { host := "localhost", port := 5432, database := "db",
          username := "u", password := "p", pool_size := 0 } =
        .error (.valueError m) :=
  ⟨(claim_C7_config_validation _).1 (by decide) (by decide) (by decide) (by decide)
      (by decide) (by decide) (by decide) (by decide),
   (claim_C7_config_validation _).2 (by decide)⟩

/-- C8: a `transaction()` scope whose block completes commits the shared
connection exactly once and makes exactly the block's writes visible; a
scope whose block raises rolls the connection back — leaving the committed
state untouched, so no writes from the scope become visible — and
re-raises the error as `TransactionError` wrapping the original cause. -/
theorem claim_C8_transaction_scope (σ α : Type) (db : σ)
    (block : σ → Except PyErr (σ × α)) :
    (∀ (db2 : σ) (a : α), block db = .ok (db2, a) →
      transactionScope db block = (.ok a, db2, [TxAction.commit])) ∧
    (∀ e : PyErr, block db = .error e →
      transactionScope db block =
        (.error (.transactionError ("Transaction failed: " ++ errMessage e) e),
         db, [TxAction.rollback])) := by
  constructor
  · intro db2 a h
    simp [transactionScope, h]
  · intro e h
    simp [transactionScope, h]

/-- Witness for C8: a committing block on a counter state, and a raising
block whose error comes back wrapped in `TransactionError` with the state
unchanged and a single rollback. -/
theorem claim_C8_witness :
    transactionScope (0 : Nat) (fun n => .ok (n + 1, ())) =
      (.ok (), 1, [TxAction.commit]) ∧
    transactionScope (0 : Nat)
      (fun _ => (.error (.valueError "boom") : Except PyErr (Nat × Unit))) =
      (.error (.transactionError "Transaction failed: boom" (.valueError "boom")),
       0, [TxAction.rollback]) :=
  ⟨(claim_C8_transaction_scope Nat Unit 0 _).1 1 () rfl,
   (claim_C8_transaction_scope Nat Unit 0 _).2 (.valueError "boom") rfl⟩

theorem find?_map_ite {α : Type} (q : α → Bool) (n : α) (l : List α) (r : α)
    (h : l.find? q = some r) (hn : q n = true) :
    (l.map fun x => if q x then n else x).find? q = some n := by
  induction l with
  | nil => simp at h
  | cons a rest ih =>
    by_cases ha : q a
    · simp [List.find?, ha, hn]
    · have ha2 : q a = false := by simp [ha]
      have h2 : rest.find? q = some r := by
        simpa [List.find?, ha2] using h
      simp only [List.map_cons, if_neg ha]
      show List.find? q (a :: _) = some n
      simp only [List.find?, ha2]
      exact ih h2

theorem mem_map_ite_of_not {α : Type} (q : α → Bool) (n : α) (l : List α)
    (x : α) (hx : x ∈ l) (hq : q x = false) :
    x ∈ l.map fun y => if q y then n else y := by
  have := List.mem_map_of_mem (fun y => if q y then n else y) hx
  simp only [hq] at this
  simpa using this


theorem except_ok_bind {e a b : Type} (x : a) (f : a → Except e b) :
    (Except.ok x >>= f) = f x := rfl

theorem except_error_bind {e a b : Type} (err : e) (f : a → Except e b) :
    ((Except.error err : Except e a) >>= f) = Except.error err := rfl

/-- C9: for `update(id, partial_data)` on every repository (Link,
Translation, TextSource, Summary, Video, Project) — a missing row raises
`NotFoundError`; the merged entity is re-validated before any write, a
validation failure propagating with the store untouched; on success only
the columns of the SQL `SET` list change on the stored row, each to its
supplied value when present and to the old value otherwise, while the
parent reference (`project_id` for TextSource, `text_source_id` for
Summary, Translation, Video and Link; Project, the root, has none) — even
when the patch supplies it — the identity, and `created_at` are unchanged,
the update timestamp is refreshed, and every other row survives
untouched. -/
theorem claim_C9_update_frame :
    (∀ (st : DBState) (lid : Int) (p : LinkPatch),
      (st.links.find? (fun r => r.id == some lid) = Option.none →
        LinkRepository.update st lid p = .error (.notFoundError "Link" lid)) ∧
      (∀ r, st.links.find? (fun r => r.id == some lid) = some r →
        ∀ e, (applyLinkPatch r p).validate = .error e →
          LinkRepository.update st lid p = .error e ∧
          resultState (LinkRepository.update st lid p) st = st) ∧
      (∀ r, st.links.find? (fun r => r.id == some lid) = some r →
        (applyLinkPatch r p).validate = .ok () →
        (∃ ret, LinkRepository.update st lid p =
          .ok (resultState (LinkRepository.update st lid p) st, ret)) ∧
        (resultState (LinkRepository.update st lid p) st).links.find?
            (fun x => x.id == some lid) =
          some { r with
                 url := p.url.getD r.url,
                 title := p.title.getD r.title,
                 description := p.description.getD r.description,
                 link_type := p.link_type.getD r.link_type,
                 is_active := p.is_active.getD r.is_active,
                 metadata := p.metadata.getD r.metadata,
                 updated_at := some st.now } ∧
        ∀ x ∈ st.links, x.id ≠ some lid →
          x ∈ (resultState (LinkRepository.update st lid p) st).links)) ∧
    (∀ (st : DBState) (tid : Int) (p : TranslationPatch),
      (st.translations.find? (fun r => r.id == some tid) = Option.none →
        TranslationRepository.update st tid p = .error (.notFoundError "Translation" tid)) ∧
      (∀ r, st.translations.find? (fun r => r.id == some tid) = some r →
        ∀ e, (applyTranslationPatch r p).validate = .error e →
          TranslationRepository.update st tid p = .error e ∧
          resultState (TranslationRepository.update st tid p) st = st) ∧
      (∀ r, st.translations.find? (fun r => r.id == some tid) = some r →
        (applyTranslationPatch r p).validate = .ok () →
        (∃ ret, TranslationRepository.update st tid p =
          .ok (resultState (TranslationRepository.update st tid p) st, ret)) ∧
        (resultState (TranslationRepository.update st tid p) st).translations.find?
            (fun x => x.id == some tid) =
          some { r with
                 title := p.title.getD r.title,
                 tokens := p.tokens.getD r.tokens,
                 original_text := p.original_text.getD r.original_text,
                 metadata := p.metadata.getD r.metadata,
                 updated_at := some st.now } ∧
        ∀ x ∈ st.translations, x.id ≠ some tid →
          x ∈ (resultState (TranslationRepository.update st tid p) st).translations)) ∧
    (∀ (st : DBState) (tsid : Int) (p : TextSourcePatch),
      (st.textSources.find? (fun r => r.id == some tsid) = Option.none →
        TextSourceRepository.update st tsid p = .error (.notFoundError "TextSource" tsid)) ∧
      (∀ r, st.textSources.find? (fun r => r.id == some tsid) = some r →
        ∀ e, (applyTextSourcePatch r p).validate = .error e →
          TextSourceRepository.update st tsid p = .error e ∧
          resultState (TextSourceRepository.update st tsid p) st = st) ∧
      (∀ r, st.textSources.find? (fun r => r.id == some tsid) = some r →
        (applyTextSourcePatch r p).validate = .ok () →
        (∃ ret, TextSourceRepository.update st tsid p =
          .ok (resultState (TextSourceRepository.update st tsid p) st, ret)) ∧
        (resultState (TextSourceRepository.update st tsid p) st).textSources.find?
            (fun x => x.id == some tsid) =
          some { r with
                 title := p.title.getD r.title,
                 content := p.content.getD r.content,
                 source_type := p.source_type.getD r.source_type,
                 source_url := p.source_url.getD r.source_url,
                 metadata := p.metadata.getD r.metadata,
                 updated_at := some st.now } ∧
        ∀ x ∈ st.textSources, x.id ≠ some tsid →
          x ∈ (resultState (TextSourceRepository.update st tsid p) st).textSources)) ∧
    (∀ (st : DBState) (sid : Int) (p : SummaryPatch),
      (st.summaries.find? (fun r => r.id == some sid) = Option.none →
        SummaryRepository.update st sid p = .error (.notFoundError "Summary" sid)) ∧
      (∀ r, st.summaries.find? (fun r => r.id == some sid) = some r →
        ∀ e, (applySummaryPatch r p).validate = .error e →
          SummaryRepository.update st sid p = .error e ∧
          resultState (SummaryRepository.update st sid p) st = st) ∧
      (∀ r, st.summaries.find? (fun r => r.id == some sid) = some r →
        (applySummaryPatch r p).validate = .ok () →
        (∃ ret, SummaryRepository.update st sid p =
          .ok (resultState (SummaryRepository.update st sid p) st, ret)) ∧
        (resultState (SummaryRepository.update st sid p) st).summaries.find?
            (fun x => x.id == some sid) =
          some { r with
                 title := p.title.getD r.title,
                 content := p.content.getD r.content,
                 summary_type := p.summary_type.getD r.summary_type,
                 metadata := p.metadata.getD r.metadata,
                 updated_at := some st.now } ∧
        ∀ x ∈ st.summaries, x.id ≠ some sid →
          x ∈ (resultState (SummaryRepository.update st sid p) st).summaries)) ∧
    (∀ (st : DBState) (vid : Int) (p : VideoPatch),
      (st.videos.find? (fun r => r.id == some vid) = Option.none →
        VideoRepository.update st vid p = .error (.notFoundError "Video" vid)) ∧
      (∀ r, st.videos.find? (fun r => r.id == some vid) = some r →
        ∀ e, (applyVideoPatch r p).validate = .error e →
          VideoRepository.update st vid p = .error e ∧
          resultState (VideoRepository.update st vid p) st = st) ∧
      (∀ r, st.videos.find? (fun r => r.id == some vid) = some r →
        (applyVideoPatch r p).validate = .ok () →
        (∃ ret, VideoRepository.update st vid p =
          .ok (resultState (VideoRepository.update st vid p) st, ret)) ∧
        (resultState (VideoRepository.update st vid p) st).videos.find?
            (fun x => x.id == some vid) =
          some { r with
                 title := p.title.getD r.title,
                 file_path := p.file_path.getD r.file_path,
                 file_url := p.file_url.getD r.file_url,
                 file_size := p.file_size.getD r.file_size,
                 duration := p.duration.getD r.duration,
                 format := p.format.getD r.format,
                 thumbnail_path := p.thumbnail_path.getD r.thumbnail_path,
                 metadata := p.metadata.getD r.metadata,
                 updated_at := some st.now } ∧
        ∀ x ∈ st.videos, x.id ≠ some vid →
          x ∈ (resultState (VideoRepository.update st vid p) st).videos)) ∧
    (∀ (st : DBState) (pid : Int) (p : ProjectPatch),
      (st.projects.find? (fun r => r.id == some pid) = Option.none →
        ProjectRepository.update st pid p = .error (.notFoundError "Project" pid)) ∧
      (∀ r, st.projects.find? (fun r => r.id == some pid) = some r →
        ∀ e, (applyProjectPatch r p).validate = .error e →
          ProjectRepository.update st pid p = .error e ∧
          resultState (ProjectRepository.update st pid p) st = st) ∧
      (∀ r, st.projects.find? (fun r => r.id == some pid) = some r →
        (applyProjectPatch r p).validate = .ok () →
        (∃ ret, ProjectRepository.update st pid p =
          .ok (resultState (ProjectRepository.update st pid p) st, ret)) ∧
        (resultState (ProjectRepository.update st pid p) st).projects.find?
            (fun x => x.id == some pid) =
          some { r with
                 name := p.name.getD r.name,
                 description := p.description.getD r.description,
                 metadata := p.metadata.getD r.metadata,
                 updated_at := some st.now } ∧
        ∀ x ∈ st.projects, x.id ≠ some pid →
          x ∈ (resultState (ProjectRepository.update st pid p) st).projects)) := by
  refine ⟨?_, ?_, ?_, ?_, ?_, ?_⟩
  · intro st lid p
    refine ⟨?_, ?_, ?_⟩
    · intro hnone
      simp only [LinkRepository.update, LinkRepository.get_by_id, hnone]
      rfl
    · intro r hfind e herr
      have h1 : LinkRepository.update st lid p = .error e := by
        simp only [LinkRepository.update, LinkRepository.get_by_id, hfind,
          except_ok_bind, herr, except_error_bind]
      exact ⟨h1, by rw [h1]; rfl⟩
    · intro r hfind hok
      have hq := List.find?_some hfind
      have h1 : LinkRepository.update st lid p =
          .ok ({ st with links := st.links.map fun x =>
                   if x.id == some lid then
                     { r with
                       url := p.url.getD r.url,
                       title := p.title.getD r.title,
                       description := p.description.getD r.description,
                       link_type := p.link_type.getD r.link_type,
                       is_active := p.is_active.getD r.is_active,
                       metadata := p.metadata.getD r.metadata,
                       updated_at := some st.now }
                   else x },
               { applyLinkPatch r p with updated_at := some st.now }) := by
        simp only [LinkRepository.update, LinkRepository.get_by_id, hfind,
          except_ok_bind, hok]
        rfl
      refine ⟨⟨{ applyLinkPatch r p with updated_at := some st.now },
               by rw [h1]; rfl⟩, ?_, ?_⟩
      · rw [h1]
        exact find?_map_ite (fun x => x.id == some lid)
          { r with
            url := p.url.getD r.url,
            title := p.title.getD r.title,
            description := p.description.getD r.description,
            link_type := p.link_type.getD r.link_type,
            is_active := p.is_active.getD r.is_active,
            metadata := p.metadata.getD r.metadata,
            updated_at := some st.now } st.links r hfind hq
      · rw [h1]
        intro x hx hne
        exact mem_map_ite_of_not _ _ _ _ hx (by simp [hne])
  · intro st tid p
    refine ⟨?_, ?_, ?_⟩
    · intro hnone
      simp only [TranslationRepository.update, TranslationRepository.get_by_id, hnone]
      rfl
    · intro r hfind e herr
      have h1 : TranslationRepository.update st tid p = .error e := by
        simp only [TranslationRepository.update, TranslationRepository.get_by_id, hfind,
          except_ok_bind, herr, except_error_bind]
      exact ⟨h1, by rw [h1]; rfl⟩
    · intro r hfind hok
      have hq := List.find?_some hfind
      have h1 : TranslationRepository.update st tid p =
          .ok ({ st with translations := st.translations.map fun x =>
                   if x.id == some tid then
                     { r with
                       title := p.title.getD r.title,
                       tokens := p.tokens.getD r.tokens,
                       original_text := p.original_text.getD r.original_text,
                       metadata := p.metadata.getD r.metadata,
                       updated_at := some st.now }
                   else x },
               { applyTranslationPatch r p with updated_at := some st.now }) := by
        simp only [TranslationRepository.update, TranslationRepository.get_by_id, hfind,
          except_ok_bind, hok]
        rfl
      refine ⟨⟨{ applyTranslationPatch r p with updated_at := some st.now },
               by rw [h1]; rfl⟩, ?_, ?_⟩
      · rw [h1]
        exact find?_map_ite (fun x => x.id == some tid)
          { r with
            title := p.title.getD r.title,
            tokens := p.tokens.getD r.tokens,
            original_text := p.original_text.getD r.original_text,
            metadata := p.metadata.getD r.metadata,
            updated_at := some st.now } st.translations r hfind hq
      · rw [h1]
        intro x hx hne
        exact mem_map_ite_of_not _ _ _ _ hx (by simp [hne])
  · intro st tsid p
    refine ⟨?_, ?_, ?_⟩
    · intro hnone
      simp only [TextSourceRepository.update, TextSourceRepository.get_by_id, hnone]
      rfl
    · intro r hfind e herr
      have h1 : TextSourceRepository.update st tsid p = .error e := by
        simp only [TextSourceRepository.update, TextSourceRepository.get_by_id, hfind,
          except_ok_bind, herr, except_error_bind]
      exact ⟨h1, by rw [h1]; rfl⟩
    · intro r hfind hok
      have hq := List.find?_some hfind
      have h1 : TextSourceRepository.update st tsid p =
          .ok ({ st with textSources := st.textSources.map fun x =>
                   if x.id == some tsid then
                     { r with
                       title := p.title.getD r.title,
                       content := p.content.getD r.content,
                       source_type := p.source_type.getD r.source_type,
                       source_url := p.source_url.getD r.source_url,
                       metadata := p.metadata.getD r.metadata,
                       updated_at := some st.now }
                   else x },
               { applyTextSourcePatch r p with updated_at := some st.now }) := by
        simp only [TextSourceRepository.update, TextSourceRepository.get_by_id, hfind,
          except_ok_bind, hok]
        rfl
      refine ⟨⟨{ applyTextSourcePatch r p with updated_at := some st.now },
               by rw [h1]; rfl⟩, ?_, ?_⟩
      · rw [h1]
        exact find?_map_ite (fun x => x.id == some tsid)
          { r with
            title := p.title.getD r.title,
            content := p.content.getD r.content,
            source_type := p.source_type.getD r.source_type,
            source_url := p.source_url.getD r.source_url,
            metadata := p.metadata.getD r.metadata,
            updated_at := some st.now } st.textSources r hfind hq
      · rw [h1]
        intro x hx hne
        exact mem_map_ite_of_not _ _ _ _ hx (by simp [hne])
  · intro st sid p
    refine ⟨?_, ?_, ?_⟩
    · intro hnone
      simp only [SummaryRepository.update, SummaryRepository.get_by_id, hnone]
      rfl
    · intro r hfind e herr
      have h1 : SummaryRepository.update st sid p = .error e := by
        simp only [SummaryRepository.update, SummaryRepository.get_by_id, hfind,
          except_ok_bind, herr, except_error_bind]
      exact ⟨h1, by rw [h1]; rfl⟩
    · intro r hfind hok
      have hq := List.find?_some hfind
      have h1 : SummaryRepository.update st sid p =
          .ok ({ st with summaries := st.summaries.map fun x =>
                   if x.id == some sid then
                     { r with
                       title := p.title.getD r.title,
                       content := p.content.getD r.content,
                       summary_type := p.summary_type.getD r.summary_type,
                       metadata := p.metadata.getD r.metadata,
                       updated_at := some st.now }
                   else x },
               { applySummaryPatch r p with updated_at := some st.now }) := by
        simp only [SummaryRepository.update, SummaryRepository.get_by_id, hfind,
          except_ok_bind, hok]
        rfl
      refine ⟨⟨{ applySummaryPatch r p with updated_at := some st.now },
               by rw [h1]; rfl⟩, ?_, ?_⟩
      · rw [h1]
        exact find?_map_ite (fun x => x.id == some sid)
          { r with
            title := p.title.getD r.title,
            content := p.content.getD r.content,
            summary_type := p.summary_type.getD r.summary_type,
            metadata := p.metadata.getD r.metadata,
            updated_at := some st.now } st.summaries r hfind hq
      · rw [h1]
        intro x hx hne
        exact mem_map_ite_of_not _ _ _ _ hx (by simp [hne])
  · intro st vid p
    refine ⟨?_, ?_, ?_⟩
    · intro hnone
      simp only [VideoRepository.update, VideoRepository.get_by_id, hnone]
      rfl
    · intro r hfind e herr
      have h1 : VideoRepository.update st vid p = .error e := by
        simp only [VideoRepository.update, VideoRepository.get_by_id, hfind,
          except_ok_bind, herr, except_error_bind]
      exact ⟨h1, by rw [h1]; rfl⟩
    · intro r hfind hok
      have hq := List.find?_some hfind
      have h1 : VideoRepository.update st vid p =
          .ok ({ st with videos := st.videos.map fun x =>
                   if x.id == some vid then
                     { r with
                       title := p.title.getD r.title,
                       file_path := p.file_path.getD r.file_path,
                       file_url := p.file_url.getD r.file_url,
                       file_size := p.file_size.getD r.file_size,
                       duration := p.duration.getD r.duration,
                       format := p.format.getD r.format,
                       thumbnail_path := p.thumbnail_path.getD r.thumbnail_path,
                       metadata := p.metadata.getD r.metadata,
                       updated_at := some st.now }
                   else x },
               { applyVideoPatch r p with updated_at := some st.now }) := by
        simp only [VideoRepository.update, VideoRepository.get_by_id, hfind,
          except_ok_bind, hok]
        rfl
      refine ⟨⟨{ applyVideoPatch r p with updated_at := some st.now },
               by rw [h1]; rfl⟩, ?_, ?_⟩
      · rw [h1]
        exact find?_map_ite (fun x => x.id == some vid)
          { r with
            title := p.title.getD r.title,
            file_path := p.file_path.getD r.file_path,
            file_url := p.file_url.getD r.file_url,
            file_size := p.file_size.getD r.file_size,
            duration := p.duration.getD r.duration,
            format := p.format.getD r.format,
            thumbnail_path := p.thumbnail_path.getD r.thumbnail_path,
            metadata := p.metadata.getD r.metadata,
            updated_at := some st.now } st.videos r hfind hq
      · rw [h1]
        intro x hx hne
        exact mem_map_ite_of_not _ _ _ _ hx (by simp [hne])
  · intro st pid p
    refine ⟨?_, ?_, ?_⟩
    · intro hnone
      simp only [ProjectRepository.update, ProjectRepository.get_by_id, hnone]
      rfl
    · intro r hfind e herr
      have h1 : ProjectRepository.update st pid p = .error e := by
        simp only [ProjectRepository.update, ProjectRepository.get_by_id, hfind,
          except_ok_bind, herr, except_error_bind]
      exact ⟨h1, by rw [h1]; rfl⟩
    · intro r hfind hok
      have hq := List.find?_some hfind
      have h1 : ProjectRepository.update st pid p =
          .ok ({ st with projects := st.projects.map fun x =>
                   if x.id == some pid then
                     { r with
                       name := p.name.getD r.name,
                       description := p.description.getD r.description,
                       metadata := p.metadata.getD r.metadata,
                       updated_at := some st.now }
                   else x },
               { applyProjectPatch r p with updated_at := some st.now }) := by
        simp only [ProjectRepository.update, ProjectRepository.get_by_id, hfind,
          except_ok_bind, hok]
        rfl
      refine ⟨⟨{ applyProjectPatch r p with updated_at := some st.now },
               by rw [h1]; rfl⟩, ?_, ?_⟩
      · rw [h1]
        exact find?_map_ite (fun x => x.id == some pid)
          { r with
            name := p.name.getD r.name,
            description := p.description.getD r.description,
            metadata := p.metadata.getD r.metadata,
            updated_at := some st.now } st.projects r hfind hq
      · rw [h1]
        intro x hx hne
        exact mem_map_ite_of_not _ _ _ _ hx (by simp [hne])

/-- Witness for C9: against a store holding one link (id 1, parent 1,
url `http://a`), a patch supplying both a new url and a new
`text_source_id` updates the stored row's url while the parent reference
stays 1; updating a missing id 77 raises `NotFoundError`; and against a
store holding one text source (id 1, parent project 1), a patch supplying
both a new title and a new `project_id` updates the stored row's title
while `project_id` stays 1. -/
theorem claim_C9_witness :
    (resultState
        (LinkRepository.update
          ⟨[], [], [], [], [],
           [{ id := some 1, text_source_id := 1, url := "http://a" }],
           1, 1, 1, 1, 1, 2, ⟨2024, 1, 1, 0, 0, 0, 0, Option.none⟩⟩
          1 { url := some "http://b", text_source_id := some 42 })
        ⟨[], [], [], [], [],
         [{ id := some 1, text_source_id := 1, url := "http://a" }],
         1, 1, 1, 1, 1, 2, ⟨2024, 1, 1, 0, 0, 0, 0, Option.none⟩⟩).links.find?
      (fun x => x.id == some 1) =
      some { id := some 1, text_source_id := 1, url := "http://b",
             updated_at := some ⟨2024, 1, 1, 0, 0, 0, 0, Option.none⟩ } ∧
    LinkRepository.update
      ⟨[], [], [], [], [],
       [{ id := some 1, text_source_id := 1, url := "http://a" }],
       1, 1, 1, 1, 1, 2, ⟨2024, 1, 1, 0, 0, 0, 0, Option.none⟩⟩
      77 { url := some "http://b", text_source_id := some 42 } =
      .error (.notFoundError "Link" 77) ∧
    (resultState
        (TextSourceRepository.update
          ⟨[], [{ id := some 1, project_id := 1, title := "t", content := "c" }],
           [], [], [], [], 1, 2, 1, 1, 1, 1, ⟨2024, 1, 1, 0, 0, 0, 0, Option.none⟩⟩
          1 { title := some "T2", project_id := some 42 })
        ⟨[], [{ id := some 1, project_id := 1, title := "t", content := "c" }],
         [], [], [], [], 1, 2, 1, 1, 1, 1, ⟨2024, 1, 1, 0, 0, 0, 0, Option.none⟩⟩).textSources.find?
      (fun x => x.id == some 1) =
      some { id := some 1, project_id := 1, title := "T2", content := "c",
             updated_at := some ⟨2024, 1, 1, 0, 0, 0, 0, Option.none⟩ } :=
  ⟨((claim_C9_update_frame.1
      ⟨[], [], [], [], [],
       [{ id := some 1, text_source_id := 1, url := "http://a" }],
       1, 1, 1, 1, 1, 2, ⟨2024, 1, 1, 0, 0, 0, 0, Option.none⟩⟩
      1 { url := some "http://b", text_source_id := some 42 }).2.2
      { id := some 1, text_source_id := 1, url := "http://a" } rfl rfl).2.1,
   (claim_C9_update_frame.1
      ⟨[], [], [], [], [],
       [{ id := some 1, text_source_id := 1, url := "http://a" }],
       1, 1, 1, 1, 1, 2, ⟨2024, 1, 1, 0, 0, 0, 0, Option.none⟩⟩
      77 { url := some "http://b", text_source_id := some 42 }).1 rfl,
   ((claim_C9_update_frame.2.2.1
      ⟨[], [{ id := some 1, project_id := 1, title := "t", content := "c" }],
       [], [], [], [], 1, 2, 1, 1, 1, 1, ⟨2024, 1, 1, 0, 0, 0, 0, Option.none⟩⟩
      1 { title := some "T2", project_id := some 42 }).2.2
      { id := some 1, project_id := 1, title := "t", content := "c" } rfl rfl).2.1⟩
